import Mathlib

/-!
Verification of the PES FastAPI backend (src/app.py, src/db.py, src/models.py):
a shallow embedding of the FHIR resource mappers, the endpoint bodies and the
medication auto-complete job, together with theorems about the behaviours the
specification describes.

Modelling conventions:
* Python dicts/lists that become JSON payloads are embedded as the `Json` type;
  mapper functions build `Json` values field by field exactly as the source
  builds dicts.
* HTTP I/O is factored out: an endpoint body is a function of the responses it
  would receive (status code, body) and of an abstract request function whose
  issued calls are returned alongside the result, so that "no request was sent"
  is expressible.
* `datetime.date` is a calendar triple; Python's date ordering is ordering of
  `toordinal`, embedded as `Date.toOrdinal` (the proleptic Gregorian ordinal).
* Python string operations used by the source (`str.split`, `strip`, `join`,
  `in`, `int()`, string comparison by code points) are embedded as executable
  functions over `List Char`.
-/

/-! ### Calendar dates and datetimes (Python `datetime.date` / `datetime.datetime`) -/

/-- A proleptic Gregorian calendar date, as Python's `datetime.date`. -/
structure Date where
  year : Nat
  month : Nat
  day : Nat
  deriving DecidableEq

/-- Gregorian leap year test (as `calendar.isleap`). -/
def isLeapYear (y : Nat) : Bool :=
  y % 4 = 0 && (y % 100 ≠ 0 || y % 400 = 0)

/-- Cumulative day counts before each month in a non-leap year (index 1..12). -/
def daysBeforeMonth (y m : Nat) : Nat :=
  ([0, 0, 31, 59, 90, 120, 151, 181, 212, 243, 273, 304, 334].getD m 0)
  + (if 2 < m && isLeapYear y then 1 else 0)

/-- Python's `date.toordinal`: day 1 is 0001-01-01. Python compares dates by
this ordinal, so `d1 < d2` in Python is `d1.toOrdinal < d2.toOrdinal` here.
(Python's `date` has year ≥ 1, where `y - 1` is non-negative and Lean's `Int`
division agrees with Python's floor division.) -/
def Date.toOrdinal (d : Date) : Int :=
  let y : Int := (d.year : Int) - 1
  365 * y + y / 4 - y / 100 + y / 400 + (daysBeforeMonth d.year d.month : Int) + (d.day : Int)

/-- Zero-pad a number to two digits, as Python `%02d` fields of `isoformat`. -/
def pad2 (n : Nat) : String :=
  if n < 10 then "0" ++ toString n else toString n

/-- Zero-pad a year to four digits, as Python `date.isoformat` does. -/
def pad4 (n : Nat) : String :=
  if n < 10 then "000" ++ toString n
  else if n < 100 then "00" ++ toString n
  else if n < 1000 then "0" ++ toString n
  else toString n

/-- Python `date.isoformat()` / `str(date)`: `YYYY-MM-DD`. -/
def Date.isoformat (d : Date) : String :=
  pad4 d.year ++ "-" ++ pad2 d.month ++ "-" ++ pad2 d.day

/-- A wall-clock time of day, as Python's `datetime.time` (microsecond 0:
none of the embedded code paths construct or print fractional seconds). -/
structure Time where
  hour : Nat
  minute : Nat
  second : Nat
  deriving DecidableEq

/-- Python `str(time)` / `time.isoformat()` for microsecond 0: `HH:MM:SS`. -/
def Time.isoformat (t : Time) : String :=
  pad2 t.hour ++ ":" ++ pad2 t.minute ++ ":" ++ pad2 t.second

/-- A naive datetime, as Python's `datetime.datetime` with microsecond 0. -/
structure DateTime where
  date : Date
  hour : Nat
  minute : Nat
  second : Nat
  deriving DecidableEq

/-- Python `datetime.isoformat()` for microsecond 0: `YYYY-MM-DDTHH:MM:SS`. -/
def DateTime.isoformat (dt : DateTime) : String :=
  dt.date.isoformat ++ "T" ++ pad2 dt.hour ++ ":" ++ pad2 dt.minute ++ ":" ++ pad2 dt.second

/-- Python `datetime.combine(d, datetime.min.time())`: midnight of `d`. -/
def combineAtMidnight (d : Date) : DateTime :=
  ⟨d, 0, 0, 0⟩

/-! ### Python string primitives over `List Char`

The source manipulates strings with `split`, `strip`, `join`, containment and
code-point comparison; these are embedded as executable functions on `List Char`
so that concrete runs reduce in the kernel. -/

/-- Split a character list at every occurrence of the separator character, as
Python `str.split(sep)` for a one-character separator (always at least one
piece). -/
def splitOnChar (sep : Char) : List Char → List (List Char)
  | [] => [[]]
  | c :: cs =>
    match splitOnChar sep cs with
    | [] => [[]]
    | piece :: rest => if c = sep then [] :: piece :: rest else (c :: piece) :: rest

/-- Python `str.split(sep)` for a one-character separator, on strings. -/
def pySplitChar (sep : Char) (s : String) : List String :=
  (splitOnChar sep s.data).map String.mk

/-- Python whitespace test used by `str.strip()` / `str.split()`. -/
def isPyWs (c : Char) : Bool :=
  c = ' ' || c = '\t' || c = '\n' || c = '\r' || c = '\x0b' || c = '\x0c'

/-- Python `str.strip()`: drop leading and trailing whitespace. -/
def pyStrip (s : String) : String :=
  String.mk (((s.data.dropWhile (fun c => isPyWs c)).reverse.dropWhile (fun c => isPyWs c)).reverse)

/-- Split at whitespace runs discarding empties, as Python `str.split()` with
no argument. -/
def pySplitWs (s : String) : List String :=
  ((s.data.splitOnP (fun c => isPyWs c)).map String.mk).filter (fun w => !w.isEmpty)

/-- Digits of a decimal literal to a number (`none` when empty or non-digit). -/
def digitsToNat : List Char → Option Nat
  | [] => none
  | cs =>
    if cs.all Char.isDigit then
      some (cs.foldl (fun acc c => acc * 10 + (c.toNat - '0'.toNat)) 0)
    else none

/-- Python `int(s)` on an already-stripped token: optional sign and digits;
`none` models the `ValueError` any other shape raises. -/
def pyInt (s : String) : Option Int :=
  match s.data with
  | '-' :: ds => (digitsToNat ds).map (fun n => -(n : Int))
  | '+' :: ds => (digitsToNat ds).map (fun n => (n : Int))
  | ds => (digitsToNat ds).map (fun n => (n : Int))

/-- Substring containment on character lists, as Python's `in` on strings. -/
def listContainsSub (pat : List Char) : List Char → Bool
  | [] => pat.isEmpty
  | c :: cs => pat.isPrefixOf (c :: cs) || listContainsSub pat cs

/-- Python `pat in s` for strings. -/
def pyContains (s pat : String) : Bool :=
  listContainsSub pat.data s.data

/-- Python string `<`: lexicographic comparison of code points. -/
def lexLtB : List Char → List Char → Bool
  | [], [] => false
  | [], _ :: _ => true
  | _ :: _, [] => false
  | a :: as, b :: bs =>
    if a.toNat < b.toNat then true
    else if b.toNat < a.toNat then false
    else lexLtB as bs

/-- Python string `<` on `String`. -/
def pyStrLt (a b : String) : Bool :=
  lexLtB a.data b.data

/-- Python string `<=` (total order: `a <= b` iff `not (b < a)`). -/
def pyStrLe (a b : String) : Bool :=
  !(pyStrLt b a)

/-- Python `", ".join`-style fold: join pieces with a separator. -/
def pyJoin (sep : String) : List String → String
  | [] => ""
  | [x] => x
  | x :: y :: rest => x ++ sep ++ pyJoin sep (y :: rest)

/-- Python `x or d` for an optional string: `d` when `x` is `None` or empty
(falsy), else `x`. -/
def pyOr (o : Option String) (d : String) : String :=
  match o with
  | some s => if s.isEmpty then d else s
  | none => d

/-- Python truthiness of an `Optional[str]`: `None` and `""` are falsy. -/
def pyTruthyStr (o : Option String) : Bool :=
  match o with
  | some s => !s.isEmpty
  | none => false

/-- Python `str(bool)`. -/
def pyStrBool (b : Bool) : String :=
  if b then "True" else "False"

/-! ### JSON values (Python dicts/lists as sent to or parsed from the wire) -/

/-- A JSON value: the shape of the Python dict/list payloads the service
builds and of what `json.loads` returns. Objects keep their key order
(Python dicts preserve insertion order; the mappers never repeat a key). -/
inductive Json : Type where
  | null : Json
  | b (b : Bool) : Json
  | int (n : Int) : Json
  | flt (q : Rat) : Json
  | str (s : String) : Json
  | arr (xs : List Json) : Json
  | obj (kvs : List (String × Json)) : Json

/-- Key lookup in an object's field list (first match; the embedded objects
have distinct keys). -/
def lookupKvs : List (String × Json) → String → Option Json
  | [], _ => none
  | (k, v) :: rest, key => if k = key then some v else lookupKvs rest key

/-- Python `d.get(key)` on a dict (and `none` on any non-dict, where Python
would raise `AttributeError`; the embedded payloads only look up dicts). -/
def Json.lookup : Json → String → Option Json
  | .obj kvs, key => lookupKvs kvs key
  | _, _ => none

/-- Python `d.get(key, default)`. -/
def jGetD (j : Json) (key : String) (d : Json) : Json :=
  (j.lookup key).getD d

/-- Python `d.get(key, [])` followed by iteration: the element list when the
value is a JSON array, else `[]`. -/
def jGetArr (j : Json) (key : String) : List Json :=
  match j.lookup key with
  | some (Json.arr xs) => xs
  | _ => []

/-- The string value at a key (`none` when absent or not a string). -/
def jGetStr (j : Json) (key : String) : Option String :=
  match j.lookup key with
  | some (Json.str s) => some s
  | _ => none

/-- Python `value == "lit"` where `value` came from a dict lookup: true only
when the value is that exact string. -/
def jStrIs (o : Option Json) (s : String) : Bool :=
  match o with
  | some (Json.str t) => t = s
  | _ => false

/-! ### `json.loads`

A recursive-descent parser for the JSON grammar, over `List Char` with a fuel
argument (fuel `length + 1` suffices: every recursive step consumes input or
descends into a strictly shorter tail). Faithfulness notes: number exponents
(`1e5`) are not modelled (no payload handled by this service contains them)
and a fractional part is parsed into a rational; everything else — the two
bracket forms, `null`/`true`/`false`, double-quoted strings with the JSON
escapes, trailing-garbage rejection — follows the grammar `json.loads`
accepts. Python's single-quoted `repr` output is *not* valid JSON; theorems
below turn on exactly that. -/

/-- Skip JSON whitespace. -/
def skipWs : List Char → List Char
  | [] => []
  | c :: cs => if c = ' ' || c = '\t' || c = '\n' || c = '\r' then skipWs cs else c :: cs

/-- One simple JSON string escape character. -/
def jsonEscChar (c : Char) : Option Char :=
  if c = '"' then some '"'
  else if c = '\\' then some '\\'
  else if c = '/' then some '/'
  else if c = 'b' then some '\x08'
  else if c = 'f' then some '\x0c'
  else if c = 'n' then some '\n'
  else if c = 'r' then some '\r'
  else if c = 't' then some '\t'
  else none

/-- Value of a hex digit (code points 48-57 are the digits, 97-102 and
65-70 the lower- and upper-case letters). -/
def hexVal (c : Char) : Option Nat :=
  let n := c.toNat
  if 48 ≤ n && n ≤ 57 then some (n - 48)
  else if 97 ≤ n && n ≤ 102 then some (n - 87)
  else if 65 ≤ n && n ≤ 70 then some (n - 55)
  else none

/-- Body of a JSON string after the opening quote: the decoded text and the
rest of the input after the closing quote. -/
def parseStringBody : List Char → Option (String × List Char)
  | [] => none
  | '"' :: rest => some ("", rest)
  | '\\' :: 'u' :: a :: b :: c :: d :: rest => do
    let ha ← hexVal a
    let hb ← hexVal b
    let hc ← hexVal c
    let hd ← hexVal d
    let (s, r) ← parseStringBody rest
    some (String.mk (Char.ofNat (((ha * 16 + hb) * 16 + hc) * 16 + hd) :: s.data), r)
  | '\\' :: e :: rest => do
    let c ← jsonEscChar e
    let (s, r) ← parseStringBody rest
    some (String.mk (c :: s.data), r)
  | c :: rest => do
    let (s, r) ← parseStringBody rest
    some (String.mk (c :: s.data), r)

/-- A JSON number starting at the given input (integer or fraction). -/
def parseNumberTail (neg : Bool) (cs : List Char) : Option (Json × List Char) :=
  let intDigits := cs.takeWhile Char.isDigit
  let afterInt := cs.dropWhile Char.isDigit
  match digitsToNat intDigits with
  | none => none
  | some ip =>
    match afterInt with
    | '.' :: cs2 =>
      let fracDigits := cs2.takeWhile Char.isDigit
      let afterFrac := cs2.dropWhile Char.isDigit
      match digitsToNat fracDigits with
      | none => none
      | some fp =>
        let q : Rat := (ip : Rat) + (fp : Rat) / ((10 : Rat) ^ fracDigits.length)
        some (Json.flt (if neg then -q else q), afterFrac)
    | _ => some (Json.int (if neg then -(ip : Int) else (ip : Int)), afterInt)

mutual

/-- One JSON value at the head of the input (after whitespace). -/
def parseValue : Nat → List Char → Option (Json × List Char)
  | 0, _ => none
  | fuel + 1, cs =>
    match skipWs cs with
    | 'n' :: 'u' :: 'l' :: 'l' :: rest => some (Json.null, rest)
    | 't' :: 'r' :: 'u' :: 'e' :: rest => some (Json.b true, rest)
    | 'f' :: 'a' :: 'l' :: 's' :: 'e' :: rest => some (Json.b false, rest)
    | '"' :: rest => (parseStringBody rest).map (fun p => (Json.str p.1, p.2))
    | '[' :: rest =>
      (match skipWs rest with
       | ']' :: rest2 => some (Json.arr [], rest2)
       | cs2 => (parseElems fuel cs2).map (fun p => (Json.arr p.1, p.2)))
    | '{' :: rest =>
      (match skipWs rest with
       | '}' :: rest2 => some (Json.obj [], rest2)
       | cs2 => (parseMembers fuel cs2).map (fun p => (Json.obj p.1, p.2)))
    | '-' :: rest => parseNumberTail true rest
    | c :: rest => if c.isDigit then parseNumberTail false (c :: rest) else none
    | [] => none

/-- The elements of a non-empty JSON array, up to and including `]`. -/
def parseElems : Nat → List Char → Option (List Json × List Char)
  | 0, _ => none
  | fuel + 1, cs => do
    let (v, rest) ← parseValue fuel cs
    match skipWs rest with
    | ',' :: rest2 => do
      let (vs, rest3) ← parseElems fuel rest2
      some (v :: vs, rest3)
    | ']' :: rest2 => some ([v], rest2)
    | _ => none

/-- The members of a non-empty JSON object, up to and including the brace. -/
def parseMembers : Nat → List Char → Option (List (String × Json) × List Char)
  | 0, _ => none
  | fuel + 1, cs =>
    match skipWs cs with
    | '"' :: rest => do
      let (k, rest2) ← parseStringBody rest
      match skipWs rest2 with
      | ':' :: rest3 => do
        let (v, rest4) ← parseValue fuel rest3
        (match skipWs rest4 with
         | ',' :: rest5 => do
           let (ms, rest6) ← parseMembers fuel rest5
           some ((k, v) :: ms, rest6)
         | '}' :: rest5 => some ([(k, v)], rest5)
         | _ => none)
      | _ => none
    | _ => none

end

/-- Python `json.loads`: parse one value and require only whitespace after it
(`none` models the `JSONDecodeError` raised otherwise). -/
def jsonLoads (s : String) : Option Json :=
  match parseValue (s.data.length + 1) s.data with
  | some (v, rest) => if skipWs rest = [] then some v else none
  | none => none

example : jsonLoads "[]" = some (Json.arr []) := by rfl

example : jsonLoads " [\"a\", null, 12] " =
    some (Json.arr [Json.str "a", Json.null, Json.int 12]) := by rfl

example : jsonLoads "[\x7b\"day\": \"2025-10-03\", \"t\": null\x7d]" =
    some (Json.arr [Json.obj [("day", Json.str "2025-10-03"), ("t", Json.null)]]) := by rfl

example : jsonLoads "[\x7b'day': 'x'\x7d]" = none := by rfl

/-! ### Input models (src/models.py) -/

/-- `models.PatientLogin`. -/
structure PatientLogin where
  uhid : String

/-- `models.SurgeryDetails`. -/
structure SurgeryDetails where
  surgery_id : String
  surgery_type : String
  video_link : Option String
  content_link : Option String

/-- `models.BasicDetails`. -/
structure BasicDetails where
  first_name : String
  last_name : String
  date_of_birth : Date
  hospital_registration_number : String
  responsible_attender_name : Option String
  requirements : Option String

/-- `models.SurgeryDetailsSection`. -/
structure SurgeryDetailsSection where
  indication : String
  extra_procedures : Option String
  site_and_side : Option String
  alternatives_considered : Option String

/-- `models.RiskItem`. -/
structure RiskItem where
  risk_name : String
  description : String
  likelihood : String
  factors_increasing_risk : Option String

/-- `models.PatientSpecificRisks`. -/
structure PatientSpecificRisks where
  patient_specific_risks : Option String

/-- `models.PatientSpecificConcerns`. -/
structure PatientSpecificConcerns where
  blood_transfusion : Option String
  other_procedures : Option String

/-- `models.HealthProfessionalStatement`. -/
structure HealthProfessionalStatement where
  name : String
  date : Date
  job_title : String
  signature : Option String
  patient_information_leaflet_provided : Option Bool
  patient_information_leaflet_provided_details : Option String
  copy_accepted_by_patient : Option Bool

/-- `models.PatientStatement`. -/
structure PatientStatement where
  interpreter_or_witness_name : Option String
  interpreter_or_witness_signature : Option String
  information_interpreted : Bool

/-- `models.AdditionalConsent` (field spelling `addittional_date` is the
source's). -/
structure AdditionalConsent where
  allows_education_research_use : Bool
  allows_research_access_to_records : Bool
  pregnant_risk_confirmed : Option Bool
  additional_name : String
  addittional_date : String
  caretaker_name : Option String
  relationship_to_patient : Option String
  reason_for_surrogate_consent : Option String

/-- `models.ConsentFormData`. -/
structure ConsentFormData where
  basic_details : BasicDetails
  surgery_details : SurgeryDetailsSection
  risks : List RiskItem
  patient_specific_risks : Option PatientSpecificRisks
  patient_specific_concerns : Option PatientSpecificConcerns
  health_professional_statement : Option HealthProfessionalStatement
  patient_statement : Option PatientStatement
  additional_consent : Option AdditionalConsent

/-- `models.ConsentFormStatus`. The `Literal` bounds of the Python model are
kept as plain integers; the mapper's `dict.get` fallbacks handle every value. -/
structure ConsentFormStatus where
  status : Int
  status_timestamp : DateTime
  approval : Int
  approval_timestamp : DateTime
  validation : Int
  validation_timestamp : DateTime
  document_url : Option String
  document_creation : DateTime

/-- `models.DocumentEntry`. -/
structure DocumentEntry where
  document_name : String
  document_link : String
  assigned_by : String
  assigned_timestamp : DateTime
  validated_by : Option String
  validation_timestamp : Option DateTime
  updated_by : String
  updated_timestamp : DateTime

/-- `models.PreOpChecklist`. -/
structure PreOpChecklist where
  documents : List DocumentEntry

/-- `models.SlotBooking`. -/
structure SlotBooking where
  date : Date
  time : Time
  booking_timestamp : DateTime

/-- `models.BillingInfo`. -/
structure BillingInfo where
  invoice_number : String

/-- `models.WatchDataEntry`. `sleep_time` is a Python float, carried as a
rational: no embedded claim computes with it, it is only forwarded. -/
structure WatchDataEntry where
  timestamp : DateTime
  sleep_time : Option Rat
  heart_rate : Option Int
  step_count : Option Int

/-- `models.WatchData`. -/
structure WatchData where
  yearly : List WatchDataEntry
  monthly : List WatchDataEntry
  weekly : List WatchDataEntry
  daily : List WatchDataEntry
  step_count_reminder : Option String

/-- `models.DosePeriod` (a `str` Enum). -/
inductive DosePeriod : Type where
  | morning : DosePeriod
  | afternoon : DosePeriod
  | night : DosePeriod
  deriving DecidableEq

/-- The string value of a `DosePeriod` member. -/
def DosePeriod.value : DosePeriod → String
  | .morning => "morning"
  | .afternoon => "afternoon"
  | .night => "night"

/-- `models.DoseEntry`. -/
structure DoseEntry where
  day : Date
  period : DosePeriod
  taken_timestamp : Option DateTime

/-- `models.TabletPrescriptionEntry`. -/
structure TabletPrescriptionEntry where
  tablet_name : String
  dosage : String
  before_food : Bool
  prescribed_date : Date
  duration_days : Int
  schedule_pattern : String
  doses_taken : List DoseEntry
  completed : Int

/-- `models.TabletPrescribed`. -/
structure TabletPrescribed where
  tablets : List TabletPrescriptionEntry

/-- `models.ExerciseEntry` (`period` is a `Literal` of three strings, kept as
a plain string). -/
structure ExerciseEntry where
  name : String
  reps : Int
  sets : Int
  difficulty : String
  progress_percentage : Rat
  assigned_date : Date
  assigned_time : Time
  duration_days : Int
  schedule : String
  period : String
  exercise_video : Option String
  completed_timestamp : Option DateTime

/-- `models.RehabInstructions`. -/
structure RehabInstructions where
  instruction_text : String
  timestamp : DateTime

/-- `models.RehabSection`. -/
structure RehabSection where
  exercises : List ExerciseEntry
  instructions : List RehabInstructions

/-- `models.MealEntry`. The model annotates `completed_timestamp` as a plain
`datetime`, but both mappers branch on its truthiness / `is not None`, so it
is embedded as optional (the schema example also passes `None`). -/
structure MealEntry where
  meal_name : String
  description : String
  period : String
  assigned_date : Date
  assigned_time : Time
  completed_timestamp : Option DateTime

/-- `models.TodaysMeal`. -/
structure TodaysMeal where
  meals : List MealEntry

/-- `models.PaymentRequest` (`amount` is a Python int, in rupees). -/
structure PaymentRequest where
  amount : Int
  currency : String
  receipt : String

/-! ### Resource mappers (src/db.py)

Each Python mapper builds dicts; these definitions build the same `Json`
values key for key, in the source's insertion order. -/

/-- `db.FHIR_BASE_PROFILE`. -/
def FHIR_BASE_PROFILE : String := "http://hl7.org/fhir/StructureDefinition"

/-- A `(resource, request)` transaction-Bundle entry as every mapper builds. -/
def bundleEntry (resource : Json) (url : String) : Json :=
  Json.obj [("resource", resource),
    ("request", Json.obj [("method", Json.str "POST"), ("url", Json.str url)])]

/-- The transaction Bundle wrapper the mappers return. -/
def transactionBundle (entries : List Json) : Json :=
  Json.obj [("resourceType", Json.str "Bundle"), ("type", Json.str "transaction"),
    ("entry", Json.arr entries)]

/-- The uhid identifier entry every mapper attaches:
`{"system": "https://hospital.com/uhid", "value": uhid}`. -/
def uhidIdentifier (uhid : String) : Json :=
  Json.obj [("system", Json.str "https://hospital.com/uhid"), ("value", Json.str uhid)]

/-- A `{"reference": "Patient/{uhid}"}` object. -/
def patientReference (uhid : String) : Json :=
  Json.obj [("reference", Json.str ("Patient/" ++ uhid))]

/-- The Patient resource dict (db.py:25-33, repeated at db.py:58-64). -/
def patientResourceJson (uhid : String) : Json :=
  Json.obj [
    ("resourceType", Json.str "Patient"),
    ("id", Json.str uhid),
    ("identifier", Json.arr [uhidIdentifier uhid]),
    ("active", Json.b true),
    ("meta", Json.obj [("profile", Json.arr [Json.str (FHIR_BASE_PROFILE ++ "/Patient")])])]

/-- `db.fhir_patient_resource`. -/
def fhir_patient_resource (login : PatientLogin) : Json :=
  transactionBundle [bundleEntry (patientResourceJson login.uhid) "Patient"]

/-- The Procedure resource built per surgery (db.py:73-93). `performedDateTime`
is `datetime.now().isoformat()` in the source; the call instant is passed in
as `now`. -/
def procedureResourceJson (uhid : String) (now : DateTime) (s : SurgeryDetails) : Json :=
  Json.obj [
    ("resourceType", Json.str "Procedure"),
    ("id", Json.str s.surgery_id),
    ("identifier", Json.arr [uhidIdentifier uhid]),
    ("status", Json.str "completed"),
    ("category", Json.obj [("coding", Json.arr [Json.obj [
        ("system", Json.str "http://snomed.info/sct"),
        ("code", Json.str "387713003"),
        ("display", Json.str "Surgical procedure")]])]),
    ("code", Json.obj [("text", Json.str s.surgery_type)]),
    ("subject", patientReference uhid),
    ("performedDateTime", Json.str now.isoformat),
    ("note", Json.arr [
        Json.obj [("text", Json.str ("Video: " ++ pyOr s.video_link "N/A"))],
        Json.obj [("text", Json.str ("Content: " ++ pyOr s.content_link "N/A"))]]),
    ("meta", Json.obj [("profile", Json.arr [Json.str (FHIR_BASE_PROFILE ++ "/Procedure")])])]

/-- `db.fhir_surgery_resources`. -/
def fhir_surgery_resources (uhid : String) (now : DateTime) (surgeries : List SurgeryDetails) : Json :=
  transactionBundle
    (bundleEntry (patientResourceJson uhid) "Patient"
      :: surgeries.map (fun s => bundleEntry (procedureResourceJson uhid now s) "Procedure"))

/-- A `{"coding": [{"system": system, "code": code, "display": display}]}`
concept, the shape every provision code of the structured consent uses. -/
def codingConcept (system code display : String) : Json :=
  Json.obj [("coding", Json.arr [Json.obj [
    ("system", Json.str system), ("code", Json.str code), ("display", Json.str display)]])]

/-- Python `s.lower()`. -/
def pyLower (s : String) : String :=
  String.mk (s.data.map Char.toLower)

/-- Python `s.replace(old, new)` for one-character `old`/`new`. -/
def pyReplaceChar (old new : Char) (s : String) : String :=
  String.mk (s.data.map (fun c => if c = old then new else c))

/-- BasicDetails provision codes (db.py:112-122). -/
def basicDetailsCodes (bd : BasicDetails) : List Json :=
  [codingConcept "http://hospital.com/patient" "first-name" bd.first_name,
   codingConcept "http://hospital.com/patient" "last-name" bd.last_name,
   codingConcept "http://hospital.com/patient" "date-of-birth" bd.date_of_birth.isoformat,
   codingConcept "http://hospital.com/patient" "hospital-registration-number" bd.hospital_registration_number]
  ++ (if pyTruthyStr bd.responsible_attender_name then
        [codingConcept "http://hospital.com/patient" "responsible-attender" (bd.responsible_attender_name.getD "")]
      else [])
  ++ (if pyTruthyStr bd.requirements then
        [codingConcept "http://hospital.com/patient" "requirements" (bd.requirements.getD "")]
      else [])

/-- SurgeryDetails provision codes (db.py:126-135). -/
def surgeryCodes (sd : SurgeryDetailsSection) : List Json :=
  [codingConcept "http://hospital.com/surgery" "indication" sd.indication]
  ++ (if pyTruthyStr sd.extra_procedures then
        [codingConcept "http://hospital.com/surgery" "extra-procedures" (sd.extra_procedures.getD "")]
      else [])
  ++ (if pyTruthyStr sd.site_and_side then
        [codingConcept "http://hospital.com/surgery" "site-and-side" (sd.site_and_side.getD "")]
      else [])
  ++ (if pyTruthyStr sd.alternatives_considered then
        [codingConcept "http://hospital.com/surgery" "alternatives-considered" (sd.alternatives_considered.getD "")]
      else [])

/-- Risk provision codes (db.py:139-144): note the extra `"text"` key. -/
def riskCodings (risks : List RiskItem) : List Json :=
  risks.map (fun r => Json.obj [
    ("coding", Json.arr [Json.obj [
      ("system", Json.str "http://hospital.com/risks"),
      ("code", Json.str (pyReplaceChar ' ' '-' (pyLower r.risk_name))),
      ("display", Json.str r.description)]]),
    ("text", Json.str (pyOr r.factors_increasing_risk ""))])

/-- Patient-specific-risk codes (db.py:148-152). -/
def patientRisksCodes (consent : ConsentFormData) : List Json :=
  match consent.patient_specific_risks with
  | some pr =>
    if pyTruthyStr pr.patient_specific_risks then
      [codingConcept "http://hospital.com/patient-specific-risks" "patient-specific-risks"
        (pr.patient_specific_risks.getD "")]
    else []
  | none => []

/-- Patient-specific-concern codes (db.py:153-158). -/
def patientConcernsCodes (consent : ConsentFormData) : List Json :=
  match consent.patient_specific_concerns with
  | some pc =>
    (if pyTruthyStr pc.blood_transfusion then
       [codingConcept "http://hospital.com/patient-specific-concerns" "blood-transfusion"
         (pc.blood_transfusion.getD "")]
     else [])
    ++ (if pyTruthyStr pc.other_procedures then
          [codingConcept "http://hospital.com/patient-specific-concerns" "other-procedures"
            (pc.other_procedures.getD "")]
        else [])
  | none => []

/-- Additional-consent codes (db.py:162-178). -/
def additionalCodes (consent : ConsentFormData) : List Json :=
  match consent.additional_consent with
  | some ac =>
    [codingConcept "http://hospital.com/additional-consent" "allows-education-research-use"
       (pyStrBool ac.allows_education_research_use),
     codingConcept "http://hospital.com/additional-consent" "allows-research-access-to-records"
       (pyStrBool ac.allows_research_access_to_records)]
    ++ (match ac.pregnant_risk_confirmed with
        | some v => [codingConcept "http://hospital.com/additional-consent" "pregnant-risk-confirmed" (pyStrBool v)]
        | none => [])
    ++ [codingConcept "http://hospital.com/additional-consent" "additional-name" ac.additional_name,
        codingConcept "http://hospital.com/additional-consent" "additional-date" ac.addittional_date]
    ++ (if pyTruthyStr ac.caretaker_name then
          [codingConcept "http://hospital.com/additional-consent" "caretaker-name" (ac.caretaker_name.getD "")]
        else [])
    ++ (if pyTruthyStr ac.relationship_to_patient then
          [codingConcept "http://hospital.com/additional-consent" "relationship-to-patient" (ac.relationship_to_patient.getD "")]
        else [])
    ++ (if pyTruthyStr ac.reason_for_surrogate_consent then
          [codingConcept "http://hospital.com/additional-consent" "reason-for-surrogate-consent" (ac.reason_for_surrogate_consent.getD "")]
        else [])
  | none => []

/-- Health-professional-statement provision codes (db.py:193-203). -/
def hpsProvisionCodes (consent : ConsentFormData) : List Json :=
  match consent.health_professional_statement with
  | some hps =>
    [codingConcept "http://hospital.com/health-professional" "job-title" hps.job_title]
    ++ (if pyTruthyStr hps.signature then
          [codingConcept "http://hospital.com/health-professional" "signature" (hps.signature.getD "")]
        else [])
    ++ (match hps.patient_information_leaflet_provided with
        | some v => [codingConcept "http://hospital.com/health-professional" "patient-info-leaflet-provided" (pyStrBool v)]
        | none => [])
    ++ (if pyTruthyStr hps.patient_information_leaflet_provided_details then
          [codingConcept "http://hospital.com/health-professional" "patient-info-leaflet-details"
            (hps.patient_information_leaflet_provided_details.getD "")]
        else [])
    ++ (match hps.copy_accepted_by_patient with
        | some v => [codingConcept "http://hospital.com/health-professional" "copy-accepted-by-patient" (pyStrBool v)]
        | none => [])
  | none => []

/-- Patient-statement provision codes (db.py:212-217). -/
def psProvisionCodes (consent : ConsentFormData) : List Json :=
  match consent.patient_statement with
  | some ps =>
    [codingConcept "http://hospital.com/patient-statement" "interpreter-or-witness-name"
       (pyOr ps.interpreter_or_witness_name "")]
    ++ (if pyTruthyStr ps.interpreter_or_witness_signature then
          [codingConcept "http://hospital.com/patient-statement" "interpreter-or-witness-signature"
            (ps.interpreter_or_witness_signature.getD "")]
        else [])
    ++ [codingConcept "http://hospital.com/patient-statement" "information-interpreted"
          (pyStrBool ps.information_interpreted)]
  | none => []

/-- All provision codes in the source's concatenation and extension order
(db.py:182, then the extends of 193-203 and 212-217). -/
def consentProvisionCodes (consent : ConsentFormData) : List Json :=
  basicDetailsCodes consent.basic_details
  ++ surgeryCodes consent.surgery_details
  ++ patientRisksCodes consent
  ++ patientConcernsCodes consent
  ++ riskCodings consent.risks
  ++ additionalCodes consent
  ++ hpsProvisionCodes consent
  ++ psProvisionCodes consent

/-- Verification entries (db.py:185-211). `hps.date` is a required date, so
its truthiness test in the source always takes the `isoformat` branch. -/
def consentVerificationEntries (consent : ConsentFormData) : List Json :=
  (match consent.health_professional_statement with
   | some hps =>
     [Json.obj [("verified", Json.b true),
       ("verifiedWith", Json.obj [("display", Json.str hps.name)]),
       ("verificationDate", Json.str hps.date.isoformat)]]
   | none => [])
  ++ (match consent.patient_statement with
      | some ps =>
        [Json.obj [("verified", Json.b true),
          ("verifiedWith", Json.obj [("display",
            Json.str (pyOr ps.interpreter_or_witness_name "Patient/Interpreter"))])]]
      | none => [])

/-- The structured Consent resource (db.py:221-247). -/
def consentStructuredResource (uhid : String) (consent : ConsentFormData) : Json :=
  Json.obj [
    ("resourceType", Json.str "Consent"),
    ("identifier", Json.arr [uhidIdentifier uhid]),
    ("status", Json.str "active"),
    ("scope", Json.obj [("coding", Json.arr [Json.obj [
        ("system", Json.str "http://terminology.hl7.org/CodeSystem/consentscope"),
        ("code", Json.str "treatment"), ("display", Json.str "Treatment")]])]),
    ("category", Json.arr [Json.obj [("coding", Json.arr [Json.obj [
        ("system", Json.str "http://loinc.org"), ("code", Json.str "57016-8"),
        ("display", Json.str "Consent for surgical procedure")]])]]),
    ("patient", patientReference uhid),
    ("policy", Json.arr []),
    ("verification", Json.arr (consentVerificationEntries consent)),
    ("provision", Json.obj [
      ("type", Json.str "permit"),
      ("actor", Json.arr [Json.obj [
        ("role", Json.obj [("text", Json.str "Patient")]),
        ("reference", patientReference uhid)]]),
      ("code", Json.arr (consentProvisionCodes consent))]),
    ("meta", Json.obj [
      ("profile", Json.arr [Json.str (FHIR_BASE_PROFILE ++ "/Consent")]),
      ("tag", Json.arr [Json.obj [
        ("system", Json.str "https://hospital.com/internal"),
        ("code", Json.str "ConsentFormData"),
        ("display", Json.str "Internal ConsentFormData resource")]])])]

/-- `db.fhir_consent_resource_structured`. -/
def fhir_consent_resource_structured (uhid : String) (consent : ConsentFormData) : Json :=
  transactionBundle [bundleEntry (consentStructuredResource uhid consent) "Consent"]

/-- `status_map.get(status, "draft")` with `{0: "draft", 1: "active"}`
(db.py:261). -/
def statusMapGet (n : Int) : String :=
  if n = 0 then "draft" else if n = 1 then "active" else "draft"

/-- `approval_map.get(approval, "draft")` with
`{0: "draft", 1: "active", 2: "rejected"}` (db.py:262). -/
def approvalMapGet (n : Int) : String :=
  if n = 0 then "draft" else if n = 1 then "active" else if n = 2 then "rejected" else "draft"

/-- The ConsentFormStatus Consent resource (db.py:264-316). -/
def consentFormStatusResource (uhid : String) (cs : ConsentFormStatus) : Json :=
  Json.obj [
    ("resourceType", Json.str "Consent"),
    ("identifier", Json.arr [uhidIdentifier uhid]),
    ("status", Json.str (statusMapGet cs.status)),
    ("scope", Json.obj [("coding", Json.arr [Json.obj [
        ("system", Json.str "http://terminology.hl7.org/CodeSystem/consentscope"),
        ("code", Json.str "treatment"), ("display", Json.str "Treatment")]])]),
    ("category", Json.arr [Json.obj [("coding", Json.arr [Json.obj [
        ("system", Json.str "http://loinc.org"), ("code", Json.str "57016-8"),
        ("display", Json.str "Consent for surgical procedure")]])]]),
    ("patient", patientReference uhid),
    ("dateTime", Json.str cs.status_timestamp.isoformat),
    ("policy", Json.arr [
      Json.obj [("authority", Json.str "https://ndhm.gov.in"), ("uri", Json.str "https://ndhm.gov.in/consent")],
      Json.obj [("authority", Json.str "https://hhs.gov/hipaa"), ("uri", Json.str "https://hhs.gov/hipaa/consent")]]),
    ("sourceAttachment", Json.obj [
      ("contentType", Json.str "application/pdf"),
      ("url", match cs.document_url with | some u => Json.str u | none => Json.null),
      ("title", Json.str "Signed Consent Form"),
      ("creation", Json.str cs.document_creation.isoformat)]),
    ("provision", Json.obj [
      ("type", Json.str (if cs.validation = 1 then "permit" else "deny")),
      ("period", Json.obj [
        ("start", Json.str cs.approval_timestamp.isoformat),
        ("end", Json.str cs.validation_timestamp.isoformat)]),
      ("actor", Json.arr [Json.obj [
        ("role", Json.obj [("text", Json.str ("Patient (Approval: " ++ approvalMapGet cs.approval ++ ")"))]),
        ("reference", patientReference uhid)]])]),
    ("meta", Json.obj [
      ("profile", Json.arr [Json.str (FHIR_BASE_PROFILE ++ "/Consent")]),
      ("tag", Json.arr [Json.obj [
        ("system", Json.str "https://hospital.com/internal"),
        ("code", Json.str "ConsentFormStatus"),
        ("display", Json.str "Internal ConsentFormStatus resource")]])])]

/-- `db.fhir_consent_form_status_resources`. -/
def fhir_consent_form_status_resources (uhid : String) (cs : ConsentFormStatus) : Json :=
  transactionBundle [bundleEntry (consentFormStatusResource uhid cs) "Consent"]

/-- The DocumentReference built per checklist document (db.py:333-354). -/
def preopDocumentResource (uhid : String) (d : DocumentEntry) : Json :=
  Json.obj [
    ("resourceType", Json.str "DocumentReference"),
    ("identifier", Json.arr [uhidIdentifier uhid]),
    ("status", Json.str "current"),
    ("type", Json.obj [("text", Json.str d.document_name)]),
    ("subject", patientReference uhid),
    ("author", Json.arr [Json.obj [("display", Json.str d.assigned_by)]]),
    ("authenticator", Json.obj [("display", Json.str (pyOr d.validated_by "N/A"))]),
    ("custodian", Json.obj [("display", Json.str d.updated_by)]),
    ("date", Json.str d.updated_timestamp.isoformat),
    ("description", Json.str ("Validation Timestamp: " ++
      (match d.validation_timestamp with | some t => t.isoformat | none => "N/A"))),
    ("content", Json.arr [Json.obj [("attachment", Json.obj [
        ("url", Json.str d.document_link),
        ("title", Json.str d.document_name),
        ("creation", Json.str d.assigned_timestamp.isoformat)])]]),
    ("meta", Json.obj [("profile", Json.arr [Json.str (FHIR_BASE_PROFILE ++ "/DocumentReference")])])]

/-- `db.fhir_preop_checklist_resources`. -/
def fhir_preop_checklist_resources (uhid : String) (checklist : PreOpChecklist) : Json :=
  transactionBundle
    (checklist.documents.map (fun d => bundleEntry (preopDocumentResource uhid d) "DocumentReference"))

/-- The Appointment resource (db.py:371-380). -/
def slotBookingAppointment (uhid : String) (slot : SlotBooking) : Json :=
  Json.obj [
    ("resourceType", Json.str "Appointment"),
    ("identifier", Json.arr [uhidIdentifier uhid]),
    ("status", Json.str "booked"),
    ("description", Json.str "Surgery Slot Booking"),
    ("start", Json.str (slot.date.isoformat ++ "T" ++ slot.time.isoformat)),
    ("created", Json.str slot.booking_timestamp.isoformat),
    ("participant", Json.arr [Json.obj [
      ("actor", patientReference uhid), ("status", Json.str "accepted")]])]

/-- `db.fhir_slot_booking_resource`. -/
def fhir_slot_booking_resource (uhid : String) (slot : SlotBooking) : Json :=
  transactionBundle [bundleEntry (slotBookingAppointment uhid slot) "Appointment"]

/-- `db.fhir_billing_resource` (an Account resource only, no Bundle). -/
def fhir_billing_resource (uhid : String) (billing : BillingInfo) : Json :=
  Json.obj [
    ("resourceType", Json.str "Account"),
    ("identifier", Json.arr [uhidIdentifier uhid,
      Json.obj [("system", Json.str "https://hospital.com/invoice"),
        ("value", Json.str billing.invoice_number)]]),
    ("status", Json.str "active"),
    ("name", Json.str ("Invoice " ++ billing.invoice_number)),
    ("subject", patientReference uhid),
    ("meta", Json.obj [("profile", Json.arr [Json.str (FHIR_BASE_PROFILE ++ "/Account")])])]

/-- An Observation as the watch-data loop body builds one (db.py:431-444). -/
def watchObsResource (uhid category code : String) (value : Json) (unit : String)
    (ts : DateTime) : Json :=
  Json.obj [
    ("resourceType", Json.str "Observation"),
    ("identifier", Json.arr [uhidIdentifier uhid]),
    ("status", Json.str "final"),
    ("category", Json.arr [Json.obj [
      ("coding", Json.arr [Json.obj [
        ("system", Json.str "http://terminology.hl7.org/CodeSystem/observation-category"),
        ("code", Json.str category)]]),
      ("text", Json.str category)]]),
    ("code", Json.obj [("text", Json.str code)]),
    ("subject", patientReference uhid),
    ("effectiveDateTime", Json.str ts.isoformat),
    ("valueQuantity", Json.obj [("value", value), ("unit", Json.str unit)]),
    ("meta", Json.obj [("profile", Json.arr [Json.str (FHIR_BASE_PROFILE ++ "/Observation")])])]

/-- The `(code, value, unit)` triples of db.py:425-429, in source order;
heart rate and step count are ints, sleep a float. -/
def watchMetricTriples (e : WatchDataEntry) : List (String × Option Json × String) :=
  [("Heart Rate", e.heart_rate.map Json.int, "beats/minute"),
   ("Step Count", e.step_count.map Json.int, "steps"),
   ("Sleep Duration", e.sleep_time.map Json.flt, "hours")]

/-- The Observations one watch entry contributes: one per metric that is not
`None` (db.py:424-445). -/
def watchEntryObs (uhid category : String) (e : WatchDataEntry) : List Json :=
  (watchMetricTriples e).filterMap
    (fun t => t.2.1.map (fun v => watchObsResource uhid category t.1 v t.2.2 e.timestamp))

/-- The `(category, entries)` pairs of the dict literal at db.py:418-423, in
its insertion order. -/
def watchCategoryPairs (w : WatchData) : List (String × List WatchDataEntry) :=
  [("yearly", w.yearly), ("monthly", w.monthly), ("weekly", w.weekly), ("daily", w.daily)]

/-- `db.fhir_watchdata_resources`. -/
def fhir_watchdata_resources (uhid : String) (w : WatchData) : Json :=
  transactionBundle
    ((watchCategoryPairs w).flatMap (fun p =>
      p.2.flatMap (fun e =>
        (watchEntryObs uhid p.1 e).map (fun obs => bundleEntry obs "Observation"))))

/-- Python `repr` of a string that contains no quote, backslash or control
character (every string serialized into the doses note is an ISO date or
datetime): an apostrophe on each side. -/
def pyReprStr (s : String) : String :=
  "'" ++ s ++ "'"

/-- Python `repr` of a `DosePeriod` member as it appears inside `str(dict)`:
`<DosePeriod.morning: 'morning'>` (a `str`-mixin Enum reprs this way). -/
def dosePeriodPyRepr (p : DosePeriod) : String :=
  "<DosePeriod." ++ p.value ++ ": '" ++ p.value ++ "'>"

/-- Python `repr` of one `{"day": ..., "period": ..., "taken_timestamp": ...}`
dict of db.py:483-487 (dict repr: keys in insertion order, `repr` of each
value, `None` for a missing timestamp). -/
def doseDictPyRepr (d : DoseEntry) : String :=
  "\x7b'day': " ++ pyReprStr d.day.isoformat
  ++ ", 'period': " ++ dosePeriodPyRepr d.period
  ++ ", 'taken_timestamp': "
  ++ (match d.taken_timestamp with | some ts => pyReprStr ts.isoformat | none => "None")
  ++ "\x7d"

/-- `str([...])` over the dose dicts (db.py:482-489): Python's `str` of a
list joins the `repr`s with `", "` inside brackets. This is what the mapper
stores in `note[0].text`. -/
def dosesNoteText (ds : List DoseEntry) : String :=
  "[" ++ pyJoin ", " (ds.map doseDictPyRepr) ++ "]"

/-- The MedicationRequest built per tablet (db.py:456-493). -/
def medicationRequestResource (uhid : String) (t : TabletPrescriptionEntry) : Json :=
  Json.obj [
    ("resourceType", Json.str "MedicationRequest"),
    ("identifier", Json.arr [uhidIdentifier uhid]),
    ("status", Json.str (if t.completed = 0 then "active" else "completed")),
    ("intent", Json.str "order"),
    ("subject", patientReference uhid),
    ("authoredOn", Json.str (combineAtMidnight t.prescribed_date).isoformat),
    ("medicationCodeableConcept", Json.obj [("text", Json.str t.tablet_name)]),
    ("dosageInstruction", Json.arr [Json.obj [
      ("text", Json.str (t.dosage ++ ", Schedule: " ++ t.schedule_pattern ++ ", "
        ++ (if t.before_food then "before food" else "after food"))),
      ("timing", Json.obj [("repeat", Json.obj [("boundsDuration", Json.obj [
        ("value", Json.int t.duration_days),
        ("unit", Json.str "days"),
        ("system", Json.str "http://unitsofmeasure.org"),
        ("code", Json.str "d")])])])]]),
    ("note", Json.arr [Json.obj [("text", Json.str (dosesNoteText t.doses_taken))]]),
    ("meta", Json.obj [("profile", Json.arr [Json.str (FHIR_BASE_PROFILE ++ "/MedicationRequest")])])]

/-- `db.fhir_medication_resources`. -/
def fhir_medication_resources (uhid : String) (tp : TabletPrescribed) : Json :=
  transactionBundle
    (tp.tablets.map (fun t => bundleEntry (medicationRequestResource uhid t) "MedicationRequest"))

/-- Python `str` of the float `progress_percentage` as used in a Task note.
Python float formatting (`40.0`) is not reproduced for non-integral values;
no theorem below inspects this text. -/
def pyStrRat (q : Rat) : String :=
  toString q

/-- The Task built per exercise (db.py:515-541), including the conditional
`input` key appended when `exercise_video` is truthy. -/
def exerciseTaskResource (uhid : String) (ex : ExerciseEntry) : Json :=
  Json.obj ([
    ("resourceType", Json.str "Task"),
    ("identifier", Json.arr [uhidIdentifier uhid]),
    ("status", Json.str (if ex.completed_timestamp.isSome then "completed" else "in-progress")),
    ("intent", Json.str "order"),
    ("description", Json.str (ex.name ++ " - " ++ toString ex.reps ++ " reps x "
      ++ toString ex.sets ++ " sets (" ++ ex.difficulty ++ ")")),
    ("for", patientReference uhid),
    ("executionPeriod", Json.obj [
      ("start", Json.str (ex.assigned_date.isoformat ++ "T" ++ ex.assigned_time.isoformat)),
      ("end", match ex.completed_timestamp with | some t => Json.str t.isoformat | none => Json.null)]),
    ("note", Json.arr [
      Json.obj [("text", Json.str ("Progress: " ++ pyStrRat ex.progress_percentage ++ "%"))],
      Json.obj [("text", Json.str ("Duration Days: " ++ toString ex.duration_days))]]),
    ("meta", Json.obj [("profile", Json.arr [Json.str (FHIR_BASE_PROFILE ++ "/Task")])])]
    ++ (if pyTruthyStr ex.exercise_video then
          [("input", Json.arr [Json.obj [
            ("type", Json.obj [("text", Json.str "Exercise Video")]),
            ("valueUrl", Json.str (ex.exercise_video.getD ""))]])]
        else []))

/-- `db.fhir_exercise_resources`. -/
def fhir_exercise_resources (uhid : String) (rehab : RehabSection) : Json :=
  transactionBundle
    (rehab.exercises.map (fun ex => bundleEntry (exerciseTaskResource uhid ex) "Task"))

/-- The instruction Observation (db.py:554-563). -/
def instructionObsResource (uhid : String) (instr : RehabInstructions) : Json :=
  Json.obj [
    ("resourceType", Json.str "Observation"),
    ("identifier", Json.arr [uhidIdentifier uhid]),
    ("status", Json.str "final"),
    ("code", Json.obj [("text", Json.str "Rehabilitation Instruction")]),
    ("subject", patientReference uhid),
    ("valueString", Json.str instr.instruction_text),
    ("effectiveDateTime", Json.str instr.timestamp.isoformat),
    ("meta", Json.obj [("profile", Json.arr [Json.str (FHIR_BASE_PROFILE ++ "/Observation")])])]

/-- `db.fhir_instruction_resources`. -/
def fhir_instruction_resources (uhid : String) (rehab : RehabSection) : Json :=
  transactionBundle
    (rehab.instructions.map (fun i => bundleEntry (instructionObsResource uhid i) "Observation"))

/-- The NutritionOrder built per meal (db.py:577-605), with the completion
note appended when `completed_timestamp` is present. -/
def mealNutritionResource (uhid : String) (m : MealEntry) : Json :=
  Json.obj [
    ("resourceType", Json.str "NutritionOrder"),
    ("identifier", Json.arr [uhidIdentifier uhid,
      Json.obj [("system", Json.str "https://hospital.com/meal-id"), ("value", Json.str m.meal_name)]]),
    ("status", Json.str (if m.completed_timestamp.isSome then "completed" else "active")),
    ("intent", Json.str "order"),
    ("patient", patientReference uhid),
    ("dateTime", Json.str (m.assigned_date.isoformat ++ "T" ++ m.assigned_time.isoformat)),
    ("oralDiet", Json.obj [
      ("type", Json.arr [Json.obj [("text", Json.str m.period)]]),
      ("instruction", Json.str m.description)]),
    ("note", Json.arr ([
      Json.obj [("text", Json.str ("Meal: " ++ m.meal_name))],
      Json.obj [("text", Json.str ("Assigned date: " ++ m.assigned_date.isoformat))],
      Json.obj [("text", Json.str ("Assigned time: " ++ m.assigned_time.isoformat))]]
      ++ (match m.completed_timestamp with
          | some t => [Json.obj [("text", Json.str ("Completed at " ++ t.isoformat))]]
          | none => []))),
    ("meta", Json.obj [("profile", Json.arr [Json.str (FHIR_BASE_PROFILE ++ "/NutritionOrder")])])]

/-- `db.fhir_meal_resources`. -/
def fhir_meal_resources (uhid : String) (meals : TodaysMeal) : Json :=
  transactionBundle
    (meals.meals.map (fun m => bundleEntry (mealNutritionResource uhid m) "NutritionOrder"))

/-! ### Endpoint bodies (src/app.py)

HTTP calls are factored out: response data the endpoint would read arrives as
arguments, and requests the endpoint would issue are returned in an issued
list, so theorems can speak about exactly what was sent. -/

/-- A raised `fastapi.HTTPException`: status code and detail. -/
structure HTTPExc where
  status_code : Nat
  detail : String
  deriving DecidableEq

/-- Python `str(HTTPException)` (Starlette defines it as
`f"{status_code}: {detail}"`). -/
def strHTTPExc (e : HTTPExc) : String :=
  toString e.status_code ++ ": " ++ e.detail

/-- The tag list `resource.get("meta", {}).get("tag", [])` (app.py:203). -/
def consentTagList (r : Json) : List Json :=
  jGetArr (jGetD r "meta" (Json.obj [])) "tag"

/-- The filtered `consent_form_status_entries` list comprehension
(app.py:198-204): resources of entries that carry a tag with
`code == "ConsentFormStatus"`. A tag that is not a dict would raise
`AttributeError` in Python; the payloads this endpoint reads only carry dict
tags, and the tag check here treats a non-dict tag as a non-match. -/
def consent_form_status_entries (entries : List Json) : List Json :=
  entries.filterMap (fun entry =>
    match entry.lookup "resource" with
    | some r =>
      if (consentTagList r).any (fun tag => jStrIs (tag.lookup "code") "ConsentFormStatus")
      then some r else none
    | none => none)

/-- The max key `lambda r: r.get("dateTime", "")` (app.py:215). A non-string
`dateTime` would make Python's `max` raise when compared against a string;
such payloads are outside this model. -/
def consentDateKey (r : Json) : String :=
  match r.lookup "dateTime" with
  | some (Json.str s) => s
  | _ => ""

/-- Python `max(iterable, key=f)` over a non-empty list, folded from an
initial best: later elements replace the best only when strictly greater, so
ties keep the earliest — exactly CPython's behaviour. -/
def pyMaxFold (f : Json → String) (best : Json) : List Json → Json
  | [] => best
  | x :: xs => pyMaxFold f (if pyStrLt (f best) (f x) then x else best) xs

/-- The `try:` body of `GET /fhir/consent-form-status/{uhid}`
(app.py:177-218): upstream status check, empty-result 404, tag filter,
latest-by-`dateTime` selection. -/
def get_consent_form_status_try (uhid : String) (respStatus : Nat) (respText : String)
    (data : Json) : Except HTTPExc Json :=
  if respStatus ≠ 200 then
    Except.error ⟨respStatus, "FHIR server returned error: " ++ respText⟩
  else
    let entries := jGetArr data "entry"
    if entries.isEmpty then
      Except.error ⟨404, "No Consent found for UHID " ++ uhid⟩
    else
      match consent_form_status_entries entries with
      | [] => Except.error ⟨404, "No ConsentFormStatus found for UHID " ++ uhid⟩
      | r :: rs =>
        Except.ok (Json.obj [("success", Json.b true), ("data", pyMaxFold consentDateKey r rs)])

/-- `GET /fhir/consent-form-status/{uhid}` (app.py:169-221). The
`except Exception` at app.py:220-221 catches the `HTTPException`s raised
inside the `try` (an `HTTPException` is an `Exception`) and re-raises
`HTTPException(500, str(e))`, so every error leaves as status 500. -/
def get_consent_form_status (uhid : String) (respStatus : Nat) (respText : String)
    (data : Json) : Except HTTPExc Json :=
  match get_consent_form_status_try uhid respStatus respText data with
  | Except.ok v => Except.ok v
  | Except.error e => Except.error ⟨500, strHTTPExc e⟩

/-- The first `link` with `relation == "next"`, then its `url`
(app.py:713-718): the `for`/`break` takes the first matching link and the
loop ends if that link has no (string) url. -/
def findNextLink (data : Json) : Option String :=
  match (jGetArr data "link").find? (fun l => jStrIs (l.lookup "relation") "next") with
  | some l =>
    (match l.lookup "url" with
     | some (Json.str u) => some u
     | _ => none)
  | none => none

/-- The `while url:` pagination loop of `GET /fhir/medications`
(app.py:703-718): fetch, append every entry's resource, follow the next
link. `fetch` abstracts `requests.get(url).json()`; fuel bounds the page
count (the theorems supply one unit per page; Python's loop simply runs on).
An empty-string url is falsy in Python, ending the loop. -/
def get_medications_pages (fetch : String → Json) : Nat → Option String → List Json
  | 0, _ => []
  | _, none => []
  | fuel + 1, some u =>
    if u.isEmpty then []
    else
      let data := fetch u
      (jGetArr data "entry").map (fun e => jGetD e "resource" (Json.obj []))
        ++ get_medications_pages fetch fuel (findNextLink data)

/-- `GET /fhir/medications` (app.py:695-723) on its success path: the
combined list of all pages starting from the first search URL. -/
def get_medications (fetch : String → Json) (pageCount : Nat) (firstUrl : String) : Json :=
  Json.obj [("success", Json.b true),
    ("medications", Json.arr (get_medications_pages fetch pageCount (some firstUrl)))]

/-- `note_text` extraction of `GET /fhir/medications/active/{uhid}`
(app.py:747): `res.get("note", [{}])[0].get("text", "[]")`. `none` models the
exceptions an empty or non-list `note` value raises; a missing key or a
missing `text` falls back exactly as the chained defaults do. -/
def activeMedNoteText (res : Json) : Option String :=
  match res.lookup "note" with
  | none => some "[]"
  | some (Json.arr (n :: _)) =>
    (match n.lookup "text" with
     | some (Json.str s) => some s
     | none => some "[]"
     | some _ => none)
  | some (Json.arr []) => none
  | some _ => none

/-- The doses decode of `GET /fhir/medications/active/{uhid}`
(app.py:750-754): `json.loads(note_text)`, and on any parse error the
fallback one-element list `[note_text]`. -/
def parse_doses_note (note_text : String) : Json :=
  match jsonLoads note_text with
  | some j => j
  | none => Json.arr [Json.str note_text]

/-- The `Json` encoding of one dose entry as the reader would need to recover
it: day as ISO date string, period value, timestamp as ISO datetime string or
null. This is the round-trip target of the dose-note property. -/
def doseEntryAsJson (d : DoseEntry) : Json :=
  Json.obj [("day", Json.str d.day.isoformat),
    ("period", Json.str d.period.value),
    ("taken_timestamp", match d.taken_timestamp with
      | some ts => Json.str ts.isoformat
      | none => Json.null)]

/-- `planned_duration` extraction of the auto-complete job (app.py:952-956):
if `"Planned duration:"` occurs in the note text, `int` of the first word
after the first colon, else `1`. `none` models the `ValueError`/`IndexError`
Python would raise on a malformed match. -/
def plannedDurationOf (note_text : String) : Option Int :=
  if pyContains note_text "Planned duration:" then
    match pySplitWs (pyStrip ((pySplitChar ':' note_text).getD 1 "")) with
    | [] => none
    | w :: _ => pyInt w
  else some 1

/-- `datetime.fromisoformat(s).date()` (app.py:949) for the
`YYYY-MM-DDTHH:MM:SS` strings this service stores in `authoredOn`: the
calendar date of the first ten characters. `none` models the `ValueError` an
unparsable string raises. -/
def parseIsoDateTimeToDate (s : String) : Option Date :=
  match splitOnChar '-' (s.data.take 10) with
  | [ys, ms, ds] => do
    let y ← digitsToNat ys
    let m ← digitsToNat ms
    let d ← digitsToNat ds
    if 1 ≤ m && m ≤ 12 && 1 ≤ d && d ≤ 31 then some (Date.mk y m d) else none
  | _ => none

/-- The per-resource decision of `auto_complete_all_medications`
(app.py:947-961): `some true` when the job would PUT this resource to
`completed` with `today`'s date, `some false` when it leaves it alone,
`none` when the resource would make the job raise (caught at app.py:990).
`last_day = authored_on + timedelta(days=planned_duration - 1)` and Python's
date comparison are carried out on `Date.toOrdinal`. -/
def auto_complete_check (res : Json) (today : Date) : Option Bool := do
  let aostr ← (match res.lookup "authoredOn" with
    | some (Json.str s) => some s
    | _ => none)
  let authored_on ← parseIsoDateTimeToDate aostr
  let note_text ← (match res.lookup "note" with
    | none => some ""
    | some (Json.arr (n :: _)) =>
      (match n.lookup "text" with
       | some (Json.str s) => some s
       | none => some ""
       | some _ => none)
    | some (Json.arr []) => none
    | some _ => none)
  let planned_duration ← plannedDurationOf note_text
  let last_day : Int := authored_on.toOrdinal + (planned_duration - 1)
  some (decide (today.toOrdinal > last_day) && !(jStrIs (res.lookup "status") "completed"))

/-- The `order_data` dict of `POST /create-order` (app.py:1384-1389): rupees
to paise by `payment.amount * 100`, capture mode fixed to 1. -/
def create_order_data (payment : PaymentRequest) : Json :=
  Json.obj [
    ("amount", Json.int (payment.amount * 100)),
    ("currency", Json.str payment.currency),
    ("receipt", Json.str payment.receipt),
    ("payment_capture", Json.int 1)]

/-- `POST /create-order` (app.py:1381-1398). `gateway` abstracts
`client.order.create`; a gateway exception (or a response without `"id"`,
where `order["id"]` raises `KeyError`) is caught and re-raised as
`HTTPException(400, str(e))`. -/
def create_order (payment : PaymentRequest) (gateway : Json → Except String Json) :
    Except HTTPExc Json :=
  match gateway (create_order_data payment) with
  | Except.error e => Except.error ⟨400, e⟩
  | Except.ok order =>
    match order.lookup "id" with
    | some idv =>
      Except.ok (Json.obj [
        ("success", Json.b true),
        ("order_id", idv),
        ("amount", Json.int payment.amount),
        ("currency", Json.str payment.currency)])
    | none => Except.error ⟨400, "'id'"⟩

/-- The delete loop of `DELETE /fhir/preop-checklist/delete`
(app.py:416-439): walk the search entries, skip entries without a (string)
id, DELETE each remaining document, stop with a failure message on a bad
status. Returns the response body and the ids actually sent a DELETE. -/
def delete_preop_loop (deleteFetch : String → Nat × String) :
    List Json → List Json → List String → Json × List String
  | [], deleted_docs, issued =>
    (Json.obj [
      ("success", Json.b true),
      ("message", Json.str ("Deleted " ++ toString deleted_docs.length ++ " document(s) successfully.")),
      ("deleted", Json.arr deleted_docs)], issued)
  | entry :: rest, deleted_docs, issued =>
    let resource := jGetD entry "resource" (Json.obj [])
    match resource.lookup "id" with
    | some (Json.str doc_id) =>
      if doc_id.isEmpty then delete_preop_loop deleteFetch rest deleted_docs issued
      else
        let r := deleteFetch doc_id
        if r.1 = 200 || r.1 = 204 then
          delete_preop_loop deleteFetch rest
            (deleted_docs ++ [Json.obj [
              ("document_name", jGetD (jGetD resource "type" (Json.obj [])) "text" Json.null),
              ("document_id", Json.str doc_id)]])
            (issued ++ [doc_id])
        else
          (Json.obj [
            ("success", Json.b false),
            ("message", Json.str ("Failed to delete document " ++ doc_id ++ ": "
              ++ toString r.1 ++ " " ++ r.2))], issued ++ [doc_id])
    | _ => delete_preop_loop deleteFetch rest deleted_docs issued

/-- `DELETE /fhir/preop-checklist/delete` (app.py:390-442): search response
handling and the delete loop. Returns the body and the list of DELETE
requests issued (empty list = no delete sent, stored resources untouched). -/
def delete_preop_document (uhid document_name : String) (searchStatus : Nat)
    (searchText : String) (searchBody : Json) (deleteFetch : String → Nat × String) :
    Json × List String :=
  if searchStatus ≥ 400 then
    (Json.obj [
      ("success", Json.b false),
      ("message", Json.str ("FHIR search error: " ++ toString searchStatus ++ " " ++ searchText))], [])
  else
    let entries := jGetArr searchBody "entry"
    if entries.isEmpty then
      (Json.obj [
        ("success", Json.b false),
        ("message", Json.str ("No document found for '" ++ document_name ++ "' and UHID '" ++ uhid ++ "'."))], [])
    else
      delete_preop_loop deleteFetch entries [] []

/-- The posting loop of `POST /fhir/medications` (app.py:679-688): only
entries whose resource has `status == "active"` are POSTed; a bad status
aborts with a failure body; otherwise the count of posted entries is
reported. Returns the body and the resources actually POSTed. -/
def post_medications_loop (postFn : Json → Nat × String) :
    List Json → Nat → List Json → Json × List Json
  | [], posted_count, issued =>
    (Json.obj [
      ("success", Json.b true),
      ("message", Json.str (toString posted_count ++ " active MedicationRequest(s) posted successfully."))],
     issued)
  | entry :: rest, posted_count, issued =>
    let med := jGetD entry "resource" (Json.obj [])
    if jStrIs (med.lookup "status") "active" then
      let r := postFn med
      if r.1 ≥ 400 then
        (Json.obj [
          ("success", Json.b false),
          ("message", Json.str ("Error posting MedicationRequest: " ++ toString r.1 ++ " " ++ r.2))],
         issued ++ [med])
      else post_medications_loop postFn rest (posted_count + 1) (issued ++ [med])
    else post_medications_loop postFn rest posted_count issued

/-- `POST /fhir/medications` (app.py:671-691): map the tablets through
`fhir_medication_resources` and run the active-only posting loop. -/
def post_medications (uhid : String) (tablets : TabletPrescribed)
    (postFn : Json → Nat × String) : Json × List Json :=
  post_medications_loop postFn (jGetArr (fhir_medication_resources uhid tablets) "entry") 0 []

/-! ### Theorems -/

/-- The dose used in the C1 failing input: 2025-10-03, morning, not taken. -/
def c1Dose : DoseEntry :=
  ⟨⟨2025, 10, 3⟩, DosePeriod.morning, none⟩

/-- The C1 failing input: one prescribed tablet with one recorded dose. -/
def c1Tablet : TabletPrescriptionEntry :=
  ⟨"Painkiller", "500mg", false, ⟨2025, 10, 3⟩, 30, "1-0-1", [c1Dose], 0⟩

/-- What db.py:482-489 actually stores for that dose: Python `str()` of the
dict list — single quotes, an Enum repr and `None`, not JSON. -/
def c1NoteText : String :=
  "[\x7b'day': '2025-10-03', 'period': <DosePeriod.morning: 'morning'>, 'taken_timestamp': None\x7d]"

/-- C1: the round trip fails on any non-empty doses list. The mapper writes
`str([...])` (single-quoted Python repr) into `note[0].text`; `json.loads`
rejects that text, so the active-medications reader returns the fallback
one-element list holding the raw string instead of the original
`doses_taken` list. Only the empty list round-trips (its `str` is `[]`). -/
theorem dose_note_roundtrip_fails :
    (medicationRequestResource "UHID1" c1Tablet).lookup "note"
        = some (Json.arr [Json.obj [("text", Json.str c1NoteText)]])
    ∧ jsonLoads c1NoteText = none
    ∧ parse_doses_note c1NoteText = Json.arr [Json.str c1NoteText]
    ∧ parse_doses_note c1NoteText ≠ Json.arr [doseEntryAsJson c1Dose]
    ∧ parse_doses_note (dosesNoteText []) = Json.arr [] := by
  refine ⟨rfl, rfl, rfl, ?_, rfl⟩
  intro h
  have hb := congrArg
    (fun j => match j with | Json.arr (Json.str _ :: _) => true | _ => false) h
  exact Bool.noConfusion hb

/-- The C2 failing input: prescribed 2025-01-01 with `duration_days = 5`. -/
def c2Tablet : TabletPrescriptionEntry :=
  ⟨"Paracetamol", "500mg", false, ⟨2025, 1, 1⟩, 5, "1-0-1", [], 0⟩

/-- The MedicationRequest the mapper produces for the C2 input. -/
def c2Res : Json :=
  medicationRequestResource "UHID1" c2Tablet

/-- C2: the auto-complete job ignores `duration_days`. The mapper stores the
duration in `dosageInstruction[0].timing.repeat.boundsDuration` and fills
`note[0].text` with the doses list, which never contains
`"Planned duration:"`; the job therefore falls back to `planned_duration = 1`
and already marks the request completed on 2025-01-02 — in particular on
2025-01-05, where the claim requires it to stay active. -/
theorem auto_complete_ignores_duration :
    auto_complete_check c2Res ⟨2025, 1, 5⟩ = some true
    ∧ auto_complete_check c2Res ⟨2025, 1, 2⟩ = some true
    ∧ plannedDurationOf (dosesNoteText c2Tablet.doses_taken) = some 1
    ∧ (c2Res.lookup "authoredOn") = some (Json.str "2025-01-01T00:00:00") := by
  exact ⟨rfl, rfl, rfl, rfl⟩

/-- A 200 search response with no `entry` key (an empty FHIR search result). -/
def c4EmptyData : Json :=
  Json.obj [("resourceType", Json.str "Bundle")]

/-- A 200 search response whose only resource carries a different internal
tag, so no entry qualifies as a ConsentFormStatus. -/
def c4UntaggedData : Json :=
  Json.obj [("entry", Json.arr [Json.obj [("resource", Json.obj [
    ("resourceType", Json.str "Consent"),
    ("meta", Json.obj [("tag", Json.arr [Json.obj [("code", Json.str "ConsentFormData")]])])])]])]

/-- C4: the not-found path does not leave as a 404. The endpoint raises
`HTTPException(404, ...)` inside its `try`, but the blanket
`except Exception` (app.py:220-221) catches it — `HTTPException` is an
`Exception` — and re-raises `HTTPException(500, str(e))`, so both empty-result
cases answer HTTP 500 with the 404 text embedded in the detail. -/
theorem consent_status_notfound_is_500 :
    get_consent_form_status "UHID9" 200 "" c4EmptyData
        = Except.error ⟨500, "404: No Consent found for UHID UHID9"⟩
    ∧ get_consent_form_status "UHID9" 200 "" c4UntaggedData
        = Except.error ⟨500, "404: No ConsentFormStatus found for UHID UHID9"⟩ := by
  exact ⟨rfl, rfl⟩

/-- The number of non-`None` metrics in one watch entry. -/
def watchMetricCount (e : WatchDataEntry) : Nat :=
  (if e.heart_rate.isSome then 1 else 0)
  + (if e.step_count.isSome then 1 else 0)
  + (if e.sleep_time.isSome then 1 else 0)

/-- `entry` of a transaction Bundle is the entry list it was built from. -/
theorem jGetArr_transactionBundle (entries : List Json) :
    jGetArr (transactionBundle entries) "entry" = entries := rfl

/-- One watch entry contributes exactly one Observation per present metric. -/
theorem watchEntryObs_length (uhid category : String) (e : WatchDataEntry) :
    (watchEntryObs uhid category e).length = watchMetricCount e := by
  rcases e with ⟨ts, st, hr, sc⟩
  cases st <;> cases hr <;> cases sc <;> rfl

/-- Length of one category's worth of wrapped Observation entries. -/
theorem length_obsEntries (uhid category : String) (es : List WatchDataEntry) :
    (es.flatMap (fun e =>
        (watchEntryObs uhid category e).map (fun obs => bundleEntry obs "Observation"))).length
      = (es.map watchMetricCount).sum := by
  induction es with
  | nil => rfl
  | cons e rest ih => simp [List.flatMap_cons, ih, watchEntryObs_length]

/-- C5: the watch-data mapper emits one Observation per non-`None` metric per
entry and none for `None` metrics — the Bundle's entry count is the sum of
present-metric counts over all four category lists, and each single entry
contributes exactly its present-metric count (0 when all three metrics are
`None`, 3 when all three are present). -/
theorem watchdata_observation_fanout (uhid : String) (w : WatchData) :
    (jGetArr (fhir_watchdata_resources uhid w) "entry").length
      = ((w.yearly ++ w.monthly ++ w.weekly ++ w.daily).map watchMetricCount).sum
    ∧ ∀ (category : String) (e : WatchDataEntry),
        (watchEntryObs uhid category e).length = watchMetricCount e := by
  constructor
  · rw [fhir_watchdata_resources, jGetArr_transactionBundle, watchCategoryPairs]
    simp only [List.flatMap_cons, List.flatMap_nil, List.append_nil, List.length_append,
      length_obsEntries, List.map_append, List.sum_append]
    omega
  · exact fun category e => watchEntryObs_length uhid category e

/-- Resource carries the uhid identifier
(`{"system": "https://hospital.com/uhid", "value": uhid}`). -/
def hasUhidIdentB (uhid : String) (r : Json) : Bool :=
  (jGetArr r "identifier").any (fun idj =>
    jStrIs (idj.lookup "system") "https://hospital.com/uhid" && jStrIs (idj.lookup "value") uhid)

/-- An optional reference object points at `Patient/{uhid}`. -/
def refIs (o : Option Json) (uhid : String) : Bool :=
  match o with
  | some subj => jStrIs (subj.lookup "reference") ("Patient/" ++ uhid)
  | none => false

/-- The uhid join key: an identifier with the hospital uhid system and value,
or a `subject`/`patient` reference equal to `Patient/{uhid}`. -/
def hasUhidKeyB (uhid : String) (r : Json) : Bool :=
  hasUhidIdentB uhid r || refIs (r.lookup "subject") uhid || refIs (r.lookup "patient") uhid

/-- The resources inside a Bundle's entries. -/
def bundleResources (b : Json) : List Json :=
  (jGetArr b "entry").filterMap (fun e => e.lookup "resource")

theorem hasKey_patientRes (uhid : String) :
    hasUhidKeyB uhid (patientResourceJson uhid) = true := by
  simp [hasUhidKeyB, hasUhidIdentB, patientResourceJson, uhidIdentifier, jGetArr,
    Json.lookup, lookupKvs, jStrIs]

theorem hasKey_procedureRes (uhid : String) (now : DateTime) (s : SurgeryDetails) :
    hasUhidKeyB uhid (procedureResourceJson uhid now s) = true := by
  simp [hasUhidKeyB, hasUhidIdentB, procedureResourceJson, uhidIdentifier, jGetArr,
    Json.lookup, lookupKvs, jStrIs]

theorem hasKey_consentStructured (uhid : String) (c : ConsentFormData) :
    hasUhidKeyB uhid (consentStructuredResource uhid c) = true := by
  simp [hasUhidKeyB, hasUhidIdentB, consentStructuredResource, uhidIdentifier, jGetArr,
    Json.lookup, lookupKvs, jStrIs]

theorem hasKey_consentFormStatus (uhid : String) (cs : ConsentFormStatus) :
    hasUhidKeyB uhid (consentFormStatusResource uhid cs) = true := by
  simp [hasUhidKeyB, hasUhidIdentB, consentFormStatusResource, uhidIdentifier, jGetArr,
    Json.lookup, lookupKvs, jStrIs]

theorem hasKey_preopDoc (uhid : String) (d : DocumentEntry) :
    hasUhidKeyB uhid (preopDocumentResource uhid d) = true := by
  simp [hasUhidKeyB, hasUhidIdentB, preopDocumentResource, uhidIdentifier, jGetArr,
    Json.lookup, lookupKvs, jStrIs]

theorem hasKey_slotAppointment (uhid : String) (slot : SlotBooking) :
    hasUhidKeyB uhid (slotBookingAppointment uhid slot) = true := by
  simp [hasUhidKeyB, hasUhidIdentB, slotBookingAppointment, uhidIdentifier, jGetArr,
    Json.lookup, lookupKvs, jStrIs]

theorem hasKey_billing (uhid : String) (b : BillingInfo) :
    hasUhidKeyB uhid (fhir_billing_resource uhid b) = true := by
  simp [hasUhidKeyB, hasUhidIdentB, fhir_billing_resource, uhidIdentifier, jGetArr,
    Json.lookup, lookupKvs, jStrIs]

theorem hasKey_watchObs (uhid category code : String) (v : Json) (unit : String)
    (ts : DateTime) : hasUhidKeyB uhid (watchObsResource uhid category code v unit ts) = true := by
  simp [hasUhidKeyB, hasUhidIdentB, watchObsResource, uhidIdentifier, jGetArr,
    Json.lookup, lookupKvs, jStrIs]

theorem hasKey_medRequest (uhid : String) (t : TabletPrescriptionEntry) :
    hasUhidKeyB uhid (medicationRequestResource uhid t) = true := by
  simp [hasUhidKeyB, hasUhidIdentB, medicationRequestResource, uhidIdentifier, jGetArr,
    Json.lookup, lookupKvs, jStrIs]

theorem hasKey_exerciseTask (uhid : String) (ex : ExerciseEntry) :
    hasUhidKeyB uhid (exerciseTaskResource uhid ex) = true := by
  simp [hasUhidKeyB, hasUhidIdentB, exerciseTaskResource, uhidIdentifier, jGetArr,
    Json.lookup, lookupKvs, jStrIs]

theorem hasKey_instructionObs (uhid : String) (i : RehabInstructions) :
    hasUhidKeyB uhid (instructionObsResource uhid i) = true := by
  simp [hasUhidKeyB, hasUhidIdentB, instructionObsResource, uhidIdentifier, jGetArr,
    Json.lookup, lookupKvs, jStrIs]

theorem hasKey_mealNutrition (uhid : String) (m : MealEntry) :
    hasUhidKeyB uhid (mealNutritionResource uhid m) = true := by
  simp [hasUhidKeyB, hasUhidIdentB, mealNutritionResource, uhidIdentifier, jGetArr,
    Json.lookup, lookupKvs, jStrIs]

/-- Extracting resources from mapped `(resource, request)` entries recovers
the mapped resources. -/
theorem filterMap_resource_map {α : Type} (f : α → Json) (url : String) (l : List α) :
    (l.map (fun x => bundleEntry (f x) url)).filterMap (fun e => e.lookup "resource") = l.map f := by
  induction l with
  | nil => rfl
  | cons a t ih => exact congrArg (List.cons (f a)) ih

/-- `all` over a mapped list whose every image satisfies the predicate. -/
theorem all_map_true {α : Type} (p : Json → Bool) (f : α → Json) (l : List α)
    (h : ∀ x, p (f x) = true) : (l.map f).all p = true := by
  induction l with
  | nil => rfl
  | cons a t ih => simp [List.all_cons, h, ih]


/-- Resources of a Bundle whose entries wrap mapped resources. -/
theorem bundleResources_mapped {α : Type} (f : α → Json) (url : String) (l : List α) :
    bundleResources (transactionBundle (l.map (fun x => bundleEntry (f x) url))) = l.map f :=
  filterMap_resource_map f url l

/-- Every resource the watch-data mapper emits is a `watchObsResource`. -/
theorem watch_resources_shape (uhid : String) (w : WatchData) :
    ∀ r ∈ bundleResources (fhir_watchdata_resources uhid w),
      ∃ category code value unit ts, r = watchObsResource uhid category code value unit ts := by
  intro r hr
  have hr' : r ∈ ((watchCategoryPairs w).flatMap (fun p =>
      p.2.flatMap (fun e =>
        (watchEntryObs uhid p.1 e).map (fun obs => bundleEntry obs "Observation")))).filterMap
      (fun e => e.lookup "resource") := hr
  obtain ⟨entry, hentry, hres⟩ := List.mem_filterMap.mp hr'
  obtain ⟨p, _, hentry2⟩ := List.mem_flatMap.mp hentry
  obtain ⟨e, _, hentry3⟩ := List.mem_flatMap.mp hentry2
  obtain ⟨obs, hobs, rfl⟩ := List.mem_map.mp hentry3
  have hro : some obs = some r := hres
  obtain ⟨trip, _, hmap⟩ := List.mem_filterMap.mp hobs
  obtain ⟨v, _, hvo⟩ := Option.map_eq_some'.mp hmap
  exact ⟨p.1, trip.1, v, trip.2.2, e.timestamp, by rw [← Option.some.inj hro, ← hvo]⟩

/-- C9: every resource emitted by every resource mapper carries the uhid join
key — an identifier `{system: https://hospital.com/uhid, value: uhid}` or a
`subject`/`patient` reference `Patient/{uhid}` (or both). -/
theorem every_mapper_resource_carries_uhid (uhid : String) (login : PatientLogin)
    (now : DateTime) (surgeries : List SurgeryDetails) (consent : ConsentFormData)
    (cstatus : ConsentFormStatus) (checklist : PreOpChecklist) (slot : SlotBooking)
    (billing : BillingInfo) (watch : WatchData) (tablets : TabletPrescribed)
    (rehab : RehabSection) (meals : TodaysMeal) :
    (bundleResources (fhir_patient_resource login)).all (hasUhidKeyB login.uhid) = true
    ∧ (bundleResources (fhir_surgery_resources uhid now surgeries)).all (hasUhidKeyB uhid) = true
    ∧ (bundleResources (fhir_consent_resource_structured uhid consent)).all (hasUhidKeyB uhid) = true
    ∧ (bundleResources (fhir_consent_form_status_resources uhid cstatus)).all (hasUhidKeyB uhid) = true
    ∧ (bundleResources (fhir_preop_checklist_resources uhid checklist)).all (hasUhidKeyB uhid) = true
    ∧ (bundleResources (fhir_slot_booking_resource uhid slot)).all (hasUhidKeyB uhid) = true
    ∧ hasUhidKeyB uhid (fhir_billing_resource uhid billing) = true
    ∧ (bundleResources (fhir_watchdata_resources uhid watch)).all (hasUhidKeyB uhid) = true
    ∧ (bundleResources (fhir_medication_resources uhid tablets)).all (hasUhidKeyB uhid) = true
    ∧ (bundleResources (fhir_exercise_resources uhid rehab)).all (hasUhidKeyB uhid) = true
    ∧ (bundleResources (fhir_instruction_resources uhid rehab)).all (hasUhidKeyB uhid) = true
    ∧ (bundleResources (fhir_meal_resources uhid meals)).all (hasUhidKeyB uhid) = true := by
  refine ⟨?_, ?_, ?_, ?_, ?_, ?_, ?_, ?_, ?_, ?_, ?_, ?_⟩
  · have h : bundleResources (fhir_patient_resource login) = [patientResourceJson login.uhid] := rfl
    rw [h]
    simp [hasKey_patientRes]
  · have h : bundleResources (fhir_surgery_resources uhid now surgeries)
        = patientResourceJson uhid :: surgeries.map (procedureResourceJson uhid now) :=
      congrArg (List.cons (patientResourceJson uhid)) (filterMap_resource_map _ _ _)
    rw [h, List.all_cons, hasKey_patientRes uhid, Bool.true_and]
    exact all_map_true _ _ _ (fun s => hasKey_procedureRes uhid now s)
  · have h : bundleResources (fhir_consent_resource_structured uhid consent)
        = [consentStructuredResource uhid consent] := rfl
    rw [h]
    simp [hasKey_consentStructured]
  · have h : bundleResources (fhir_consent_form_status_resources uhid cstatus)
        = [consentFormStatusResource uhid cstatus] := rfl
    rw [h]
    simp [hasKey_consentFormStatus]
  · rw [fhir_preop_checklist_resources, bundleResources_mapped]
    exact all_map_true _ _ _ (fun d => hasKey_preopDoc uhid d)
  · have h : bundleResources (fhir_slot_booking_resource uhid slot)
        = [slotBookingAppointment uhid slot] := rfl
    rw [h]
    simp [hasKey_slotAppointment]
  · exact hasKey_billing uhid billing
  · rw [List.all_eq_true]
    intro r hr
    obtain ⟨category, code, v, unit, ts, rfl⟩ := watch_resources_shape uhid watch r hr
    simp [hasKey_watchObs]
  · rw [fhir_medication_resources, bundleResources_mapped]
    exact all_map_true _ _ _ (fun t => hasKey_medRequest uhid t)
  · rw [fhir_exercise_resources, bundleResources_mapped]
    exact all_map_true _ _ _ (fun ex => hasKey_exerciseTask uhid ex)
  · rw [fhir_instruction_resources, bundleResources_mapped]
    exact all_map_true _ _ _ (fun i => hasKey_instructionObs uhid i)
  · rw [fhir_meal_resources, bundleResources_mapped]
    exact all_map_true _ _ _ (fun m => hasKey_mealNutrition uhid m)

/-- Code-point lexicographic `<` is asymmetric. -/
theorem lexLtB_asymm : ∀ a b, lexLtB a b = true → lexLtB b a = false
  | [], [] => by simp [lexLtB]
  | [], _ :: _ => by simp [lexLtB]
  | _ :: _, [] => by simp [lexLtB]
  | a :: as, b :: bs => by
    simp only [lexLtB]
    by_cases h1 : a.toNat < b.toNat
    · have h2 : ¬ b.toNat < a.toNat := by omega
      simp [h1, h2]
    · by_cases h2 : b.toNat < a.toNat
      · simp [h1, h2]
      · simp [h1, h2]
        exact lexLtB_asymm as bs

/-- Code-point lexicographic `<` is irreflexive. -/
theorem lexLtB_irrefl : ∀ a, lexLtB a a = false
  | [] => rfl
  | x :: xs => by
    simp [lexLtB]
    exact lexLtB_irrefl xs

/-- The negation of code-point `<` is transitive. -/
theorem lexLtB_le_trans : ∀ a b c, lexLtB b a = false → lexLtB c b = false → lexLtB c a = false
  | [], _, c => by
    intro h1 h2
    cases c <;> rfl
  | _ :: _, [], _ => by
    intro h1 h2
    simp [lexLtB] at h1
  | _ :: _, _ :: _, [] => by
    intro h1 h2
    simp [lexLtB] at h2
  | x :: xs, y :: ys, z :: zs => by
    simp only [lexLtB]
    intro h1 h2
    by_cases hyx : y.toNat < x.toNat
    · simp [hyx] at h1
    · by_cases hzy : z.toNat < y.toNat
      · simp [hzy] at h2
      · by_cases hzx : z.toNat < x.toNat
        · omega
        · by_cases hxz : x.toNat < z.toNat
          · simp [hzx, hxz]
          · have hxy : ¬ x.toNat < y.toNat := by omega
            have hyz : ¬ y.toNat < z.toNat := by omega
            simp [hyx, hxy] at h1
            simp [hzy, hyz] at h2
            simp [hzx, hxz]
            exact lexLtB_le_trans xs ys zs h1 h2

/-- Python string `<=` is reflexive. -/
theorem pyStrLe_refl (a : String) : pyStrLe a a = true := by
  rw [pyStrLe, pyStrLt, lexLtB_irrefl]
  rfl

/-- Python string `<` implies `<=`. -/
theorem pyStrLe_of_lt (a b : String) (h : pyStrLt a b = true) : pyStrLe a b = true := by
  rw [pyStrLe, pyStrLt, lexLtB_asymm a.data b.data h]
  rfl

/-- Python string `<=` is transitive. -/
theorem pyStrLe_trans (a b c : String) (h1 : pyStrLe a b = true) (h2 : pyStrLe b c = true) :
    pyStrLe a c = true := by
  rw [pyStrLe, pyStrLt] at h1 h2 ⊢
  rw [lexLtB_le_trans a.data b.data c.data
    (by cases hx : lexLtB b.data a.data <;> simp_all)
    (by cases hx : lexLtB c.data b.data <;> simp_all)]
  rfl

/-- Python's `max(key=f)` result is one of the candidates. -/
theorem pyMaxFold_mem (f : Json → String) : ∀ (l : List Json) (b : Json),
    pyMaxFold f b l ∈ b :: l := by
  intro l
  induction l with
  | nil => intro b; simp [pyMaxFold]
  | cons x xs ih =>
    intro b
    rw [pyMaxFold]
    rcases List.mem_cons.mp (ih (if pyStrLt (f b) (f x) then x else b)) with he | ht
    · rw [he]
      by_cases hc : pyStrLt (f b) (f x) = true
      · simp [hc]
      · simp [hc]
    · exact List.mem_cons_of_mem b (List.mem_cons_of_mem x ht)

/-- Python's `max(key=f)` result has a maximal key among the candidates. -/
theorem pyMaxFold_ge (f : Json → String) : ∀ (l : List Json) (b : Json) (y : Json),
    y ∈ b :: l → pyStrLe (f y) (f (pyMaxFold f b l)) = true := by
  intro l
  induction l with
  | nil =>
    intro b y hy
    rcases List.mem_cons.mp hy with he | h0
    · rw [he]
      exact pyStrLe_refl (f b)
    · simp at h0
  | cons x xs ih =>
    intro b y hy
    rw [pyMaxFold]
    have hb : pyStrLe (f b) (f (if pyStrLt (f b) (f x) then x else b)) = true := by
      by_cases hc : pyStrLt (f b) (f x) = true
      · rw [if_pos hc]
        exact pyStrLe_of_lt (f b) (f x) hc
      · rw [if_neg hc]
        exact pyStrLe_refl (f b)
    have hx : pyStrLe (f x) (f (if pyStrLt (f b) (f x) then x else b)) = true := by
      by_cases hc : pyStrLt (f b) (f x) = true
      · rw [if_pos hc]
        exact pyStrLe_refl (f x)
      · rw [if_neg hc]
        rw [pyStrLe]
        cases hl : pyStrLt (f b) (f x)
        · rfl
        · exact absurd hl hc
    have hbe : pyStrLe (f (if pyStrLt (f b) (f x) then x else b))
        (f (pyMaxFold f (if pyStrLt (f b) (f x) then x else b) xs)) = true :=
      ih _ _ (List.mem_cons_self _ _)
    rcases List.mem_cons.mp hy with he | ht
    · rw [he]
      exact pyStrLe_trans _ _ _ hb hbe
    rcases List.mem_cons.mp ht with he2 | ht2
    · rw [he2]
      exact pyStrLe_trans _ _ _ hx hbe
    · exact ih _ y (List.mem_cons_of_mem _ ht2)

/-- C3: whenever the filtered ConsentFormStatus list is non-empty (in
particular when it has two or more entries), the status-fetch endpoint
returns `success: true` with the entry selected by Python's `max` on the raw
`dateTime` string — an entry whose `dateTime` is lexicographically maximal
under code-point string comparison (not parsed-date comparison). -/
theorem consent_status_returns_latest (uhid respText : String) (data : Json)
    (r : Json) (rs : List Json)
    (hfilter : consent_form_status_entries (jGetArr data "entry") = r :: rs)
    (_htwo : rs ≠ []) :
    ∃ latest, get_consent_form_status uhid 200 respText data
        = Except.ok (Json.obj [("success", Json.b true), ("data", latest)])
      ∧ latest ∈ r :: rs
      ∧ ∀ x ∈ r :: rs, pyStrLe (consentDateKey x) (consentDateKey latest) = true := by
  have hne : (jGetArr data "entry").isEmpty = false := by
    cases hent : jGetArr data "entry" with
    | nil =>
      rw [hent] at hfilter
      simp [consent_form_status_entries] at hfilter
    | cons a t => rfl
  refine ⟨pyMaxFold consentDateKey r rs, ?_, pyMaxFold_mem consentDateKey rs r,
    fun x hx => pyMaxFold_ge consentDateKey rs r x hx⟩
  simp only [get_consent_form_status, get_consent_form_status_try, hne, hfilter]
  simp

/-- The first tagged Consent entry of the C3 witness data. -/
def c3Entry1 : Json :=
  Json.obj [("resourceType", Json.str "Consent"),
    ("meta", Json.obj [("tag", Json.arr [Json.obj [("code", Json.str "ConsentFormStatus")]])]),
    ("dateTime", Json.str "2025-01-01T00:00:00")]

/-- The second tagged Consent entry of the C3 witness data. -/
def c3Entry2 : Json :=
  Json.obj [("resourceType", Json.str "Consent"),
    ("meta", Json.obj [("tag", Json.arr [Json.obj [("code", Json.str "ConsentFormStatus")]])]),
    ("dateTime", Json.str "2025-01-02T00:00:00")]

/-- A 200 search response carrying both tagged entries. -/
def c3Data : Json :=
  Json.obj [("entry", Json.arr [
    Json.obj [("resource", c3Entry1)],
    Json.obj [("resource", c3Entry2)]])]

/-- Witness for C3: with `dateTime` values `2025-01-01T00:00:00` and
`2025-01-02T00:00:00`, the endpoint returns the second entry. -/
theorem consent_status_returns_latest_witness :
    consent_form_status_entries (jGetArr c3Data "entry") = [c3Entry1, c3Entry2]
    ∧ get_consent_form_status "UHID1" 200 "" c3Data
        = Except.ok (Json.obj [("success", Json.b true), ("data", c3Entry2)])
    ∧ (∃ latest, get_consent_form_status "UHID1" 200 "" c3Data
        = Except.ok (Json.obj [("success", Json.b true), ("data", latest)])
      ∧ latest ∈ c3Entry1 :: [c3Entry2]
      ∧ ∀ x ∈ c3Entry1 :: [c3Entry2],
          pyStrLe (consentDateKey x) (consentDateKey latest) = true) :=
  ⟨rfl, rfl,
    consent_status_returns_latest "UHID1" "" c3Data c3Entry1 [c3Entry2] rfl (by simp)⟩

/-- A non-empty string is not `isEmpty`. -/
theorem strIsEmpty_false (s : String) (h : s ≠ "") : s.isEmpty = false := by
  cases hh : s.isEmpty
  · rfl
  · exact absurd ((String.isEmpty_iff s).mp hh) h

/-- One iteration of the medications pagination loop at a non-empty URL. -/
theorem get_medications_pages_step (fetch : String → Json) (fuel : Nat) (u : String)
    (hu : u.isEmpty = false) :
    get_medications_pages fetch (fuel + 1) (some u)
      = (jGetArr (fetch u) "entry").map (fun e => jGetD e "resource" (Json.obj []))
        ++ get_medications_pages fetch fuel (findNextLink (fetch u)) := by
  simp only [get_medications_pages, hu, Bool.false_eq_true, if_false]

/-- A fetchable chain of pages: each page is what `fetch` returns at its URL,
every non-final page's first `relation == "next"` link carries the next
page's (non-empty) URL, and the final page has no next link. -/
def PageChain (fetch : String → Json) : String → List Json → Prop
  | _, [] => False
  | u, [p] => fetch u = p ∧ findNextLink p = none
  | u, p :: q :: rest => fetch u = p ∧ ∃ nextUrl, findNextLink p = some nextUrl
      ∧ nextUrl ≠ "" ∧ PageChain fetch nextUrl (q :: rest)

/-- C6: the medications list endpoint drains every page. For any chain of
search-result pages linked by `relation == "next"` links, the pagination loop
visits every page and returns the concatenation, in page order, of every
entry's resource. -/
theorem medications_pagination_drains_all_pages (fetch : String → Json) :
    ∀ (pages : List Json) (url : String), url ≠ "" → PageChain fetch url pages →
      get_medications_pages fetch pages.length (some url)
        = (pages.map (fun p =>
            (jGetArr p "entry").map (fun e => jGetD e "resource" (Json.obj [])))).flatten := by
  intro pages
  induction pages with
  | nil =>
    intro url hne hchain
    exact hchain.elim
  | cons p rest ih =>
    intro url hne hchain
    cases rest with
    | nil =>
      obtain ⟨hfetch, hnext⟩ := hchain
      rw [show ([p] : List Json).length = 0 + 1 from rfl,
        get_medications_pages_step fetch 0 url (strIsEmpty_false url hne), hfetch, hnext]
      simp [get_medications_pages]
    | cons q rest2 =>
      obtain ⟨hfetch, nextUrl, hnext, hne2, hchain2⟩ := hchain
      rw [show (p :: q :: rest2).length = (q :: rest2).length + 1 from rfl,
        get_medications_pages_step fetch (q :: rest2).length url (strIsEmpty_false url hne),
        hfetch, hnext, ih nextUrl hne2 hchain2]
      simp

/-- Page 1 of the C6 witness: one entry and a next link to `page2`. -/
def c6Page1 : Json :=
  Json.obj [
    ("entry", Json.arr [Json.obj [("resource", Json.obj [("id", Json.str "m1")])]]),
    ("link", Json.arr [Json.obj [("relation", Json.str "next"), ("url", Json.str "page2")]])]

/-- Page 2 of the C6 witness: one entry and no next link. -/
def c6Page2 : Json :=
  Json.obj [("entry", Json.arr [Json.obj [("resource", Json.obj [("id", Json.str "m2")])]])]

/-- The C6 witness server: `page2` serves page 2, anything else page 1. -/
def c6Fetch : String → Json :=
  fun u => if u = "page2" then c6Page2 else c6Page1

/-- Witness for C6: a two-page chain is drained into the combined two-entry
list in page order. -/
theorem medications_pagination_witness :
    PageChain c6Fetch "page1" [c6Page1, c6Page2]
    ∧ get_medications_pages c6Fetch ([c6Page1, c6Page2] : List Json).length (some "page1")
        = ([c6Page1, c6Page2].map (fun p =>
            (jGetArr p "entry").map (fun e => jGetD e "resource" (Json.obj [])))).flatten
    ∧ get_medications_pages c6Fetch 2 (some "page1")
        = [Json.obj [("id", Json.str "m1")], Json.obj [("id", Json.str "m2")]] := by
  have hchain : PageChain c6Fetch "page1" [c6Page1, c6Page2] :=
    ⟨rfl, "page2", rfl, by simp, rfl, rfl⟩
  exact ⟨hchain,
    medications_pagination_drains_all_pages c6Fetch [c6Page1, c6Page2] "page1" (by simp) hchain,
    rfl⟩

/-- C7: the create-order endpoint converts rupees to paise (`amount * 100`)
with capture mode fixed to 1 in the order request, and on gateway success
returns `success: true` with `order_id` taken from the gateway response's
`id` and the amount and currency echoed from the input. -/
theorem create_order_paise_and_echo (payment : PaymentRequest)
    (gateway : Json → Except String Json) (order : Json) (idv : Json)
    (hg : gateway (create_order_data payment) = Except.ok order)
    (hid : order.lookup "id" = some idv) :
    create_order payment gateway
        = Except.ok (Json.obj [("success", Json.b true), ("order_id", idv),
            ("amount", Json.int payment.amount), ("currency", Json.str payment.currency)])
    ∧ (create_order_data payment).lookup "amount" = some (Json.int (payment.amount * 100))
    ∧ (create_order_data payment).lookup "payment_capture" = some (Json.int 1) := by
  refine ⟨?_, rfl, rfl⟩
  simp only [create_order, hg, hid]

/-- The C7 witness input: 100 rupees, INR, receipt `r1`. -/
def c7Payment : PaymentRequest :=
  ⟨100, "INR", "r1"⟩

/-- The C7 witness gateway: always returns an order with id `order_123`. -/
def c7Gateway : Json → Except String Json :=
  fun _ => Except.ok (Json.obj [("id", Json.str "order_123")])

/-- Witness for C7: the `{amount: 100}` input yields an order request with
`amount = 10000` and the response echoes the gateway's `id`. -/
theorem create_order_witness :
    c7Gateway (create_order_data c7Payment) = Except.ok (Json.obj [("id", Json.str "order_123")])
    ∧ (create_order_data c7Payment).lookup "amount" = some (Json.int 10000)
    ∧ (create_order c7Payment c7Gateway
        = Except.ok (Json.obj [("success", Json.b true), ("order_id", Json.str "order_123"),
            ("amount", Json.int c7Payment.amount), ("currency", Json.str c7Payment.currency)])
      ∧ (create_order_data c7Payment).lookup "amount" = some (Json.int (c7Payment.amount * 100))
      ∧ (create_order_data c7Payment).lookup "payment_capture" = some (Json.int 1)) :=
  ⟨rfl, rfl,
    create_order_paise_and_echo c7Payment c7Gateway (Json.obj [("id", Json.str "order_123")])
      (Json.str "order_123") rfl rfl⟩

/-- C8: when the DocumentReference search returns zero entries, the
preop-checklist delete endpoint answers `success: false` with the
no-document message and issues no DELETE request at all (so the stored
resources are untouched). -/
theorem delete_preop_no_match_sends_nothing (uhid document_name : String)
    (searchStatus : Nat) (searchText : String) (searchBody : Json)
    (deleteFetch : String → Nat × String)
    (hok : searchStatus < 400)
    (hempty : jGetArr searchBody "entry" = []) :
    delete_preop_document uhid document_name searchStatus searchText searchBody deleteFetch
      = (Json.obj [("success", Json.b false),
          ("message", Json.str ("No document found for '" ++ document_name
            ++ "' and UHID '" ++ uhid ++ "'."))],
         []) := by
  have h1 : ¬ searchStatus ≥ 400 := by omega
  simp [delete_preop_document, h1, hempty]

/-- Witness for C8: a search body with no entries yields the failure body and
an empty issued-delete list. -/
theorem delete_preop_no_match_witness :
    (200 : Nat) < 400
    ∧ jGetArr (Json.obj [("resourceType", Json.str "Bundle")]) "entry" = []
    ∧ delete_preop_document "U1" "Blood Report" 200 "" (Json.obj [("resourceType", Json.str "Bundle")])
        (fun _ => (500, "boom"))
      = (Json.obj [("success", Json.b false),
          ("message", Json.str ("No document found for 'Blood Report' and UHID 'U1'."))],
         []) := by
  refine ⟨by omega, rfl, ?_⟩
  have h := delete_preop_no_match_sends_nothing "U1" "Blood Report" 200 ""
    (Json.obj [("resourceType", Json.str "Bundle")]) (fun _ => (500, "boom")) (by omega) rfl
  rw [h]
  rfl

/-- The resource inside a mapper-built Bundle entry. -/
theorem jGetD_bundleEntry (r : Json) (url : String) (d : Json) :
    jGetD (bundleEntry r url) "resource" d = r := rfl

/-- The stored status of a mapped MedicationRequest: `active` exactly for
`completed = 0`. -/
theorem medRequest_status (uhid : String) (t : TabletPrescriptionEntry) :
    (medicationRequestResource uhid t).lookup "status"
      = some (Json.str (if t.completed = 0 then "active" else "completed")) := rfl

/-- The posting loop over mapper entries when every POST succeeds: it posts
exactly the active (`completed = 0`) resources, in order, and reports their
count. -/
theorem post_medications_loop_all_ok (postFn : Json → Nat × String)
    (hpost : ∀ m, (postFn m).1 < 400) :
    ∀ (ts : List TabletPrescriptionEntry) (uhid : String) (count : Nat) (issued : List Json),
      post_medications_loop postFn
          (ts.map (fun t => bundleEntry (medicationRequestResource uhid t) "MedicationRequest"))
          count issued
        = (Json.obj [("success", Json.b true),
            ("message", Json.str (toString (count + (ts.filter (fun t => t.completed = 0)).length)
              ++ " active MedicationRequest(s) posted successfully."))],
           issued ++ (ts.filter (fun t => t.completed = 0)).map (medicationRequestResource uhid)) := by
  intro ts
  induction ts with
  | nil =>
    intro uhid count issued
    simp [post_medications_loop]
  | cons t rest ih =>
    intro uhid count issued
    rw [List.map_cons]
    by_cases hc : t.completed = 0
    · have hstat : jStrIs ((medicationRequestResource uhid t).lookup "status") "active" = true := by
        rw [medRequest_status, if_pos hc]
        simp [jStrIs]
      have hno : ¬ (postFn (medicationRequestResource uhid t)).1 ≥ 400 := by
        have := hpost (medicationRequestResource uhid t)
        omega
      have hfil : (t :: rest).filter (fun t => t.completed = 0)
          = t :: rest.filter (fun t => t.completed = 0) := by
        simp [List.filter_cons, hc]
      simp only [post_medications_loop, jGetD_bundleEntry, hstat, if_true, hno, if_false]
      rw [ih uhid (count + 1) (issued ++ [medicationRequestResource uhid t]), hfil]
      simp only [List.map_cons, List.length_cons]
      rw [show count + 1 + (rest.filter (fun t => t.completed = 0)).length
          = count + ((rest.filter (fun t => t.completed = 0)).length + 1) from by omega]
      simp [List.append_assoc]
    · have hstat : jStrIs ((medicationRequestResource uhid t).lookup "status") "active" = false := by
        rw [medRequest_status, if_neg hc]
        simp [jStrIs]
      have hfil : (t :: rest).filter (fun t => t.completed = 0)
          = rest.filter (fun t => t.completed = 0) := by
        simp [List.filter_cons, hc]
      simp only [post_medications_loop, jGetD_bundleEntry, hstat, Bool.false_eq_true, if_false]
      rw [hfil]
      exact ih uhid count issued

/-- C10: the medications POST endpoint sends to the FHIR server exactly the
MedicationRequest entries whose status is `active` (the tablets with
`completed = 0`), never the entries mapped to status `completed`, and (when
every POST succeeds) the success message counts exactly the posted active
entries; every resource actually posted carries status `active`. -/
theorem post_medications_active_only (uhid : String) (tablets : TabletPrescribed)
    (postFn : Json → Nat × String) (hpost : ∀ m, (postFn m).1 < 400) :
    post_medications uhid tablets postFn
      = (Json.obj [("success", Json.b true),
          ("message", Json.str (toString ((tablets.tablets.filter (fun t => t.completed = 0)).length)
            ++ " active MedicationRequest(s) posted successfully."))],
         (tablets.tablets.filter (fun t => t.completed = 0)).map (medicationRequestResource uhid))
    ∧ ∀ r ∈ (post_medications uhid tablets postFn).2,
        jStrIs (r.lookup "status") "active" = true := by
  have h : post_medications uhid tablets postFn
      = (Json.obj [("success", Json.b true),
          ("message", Json.str (toString ((tablets.tablets.filter (fun t => t.completed = 0)).length)
            ++ " active MedicationRequest(s) posted successfully."))],
         (tablets.tablets.filter (fun t => t.completed = 0)).map (medicationRequestResource uhid)) := by
    rw [post_medications, fhir_medication_resources, jGetArr_transactionBundle]
    have h0 := post_medications_loop_all_ok postFn hpost tablets.tablets uhid 0 []
    rw [h0]
    simp
  refine ⟨h, ?_⟩
  intro r hr
  rw [h] at hr
  obtain ⟨t, ht, rfl⟩ := List.mem_map.mp hr
  have hc : t.completed = 0 := by
    have := List.mem_filter.mp ht
    simpa using this.2
  rw [medRequest_status, if_pos hc]
  simp [jStrIs]

/-- An active tablet (C10 witness). -/
def c10Active : TabletPrescriptionEntry :=
  ⟨"Painkiller", "500mg", false, ⟨2025, 10, 3⟩, 30, "1-0-1", [], 0⟩

/-- A finished tablet (C10 witness). -/
def c10Completed : TabletPrescriptionEntry :=
  ⟨"Vitamin D", "1000 IU", true, ⟨2025, 9, 1⟩, 15, "1-0-0", [], 1⟩

/-- Witness for C10: of one active and one completed tablet, only the active
one is posted and the message counts one posted request. -/
theorem post_medications_active_only_witness :
    (∀ m, ((fun (_ : Json) => ((201 : Nat), "")) m).1 < 400)
    ∧ (post_medications "U1" ⟨[c10Active, c10Completed]⟩ (fun _ => (201, ""))
        = (Json.obj [("success", Json.b true),
            ("message", Json.str "1 active MedicationRequest(s) posted successfully.")],
           [medicationRequestResource "U1" c10Active])
      ∧ ∀ r ∈ (post_medications "U1" ⟨[c10Active, c10Completed]⟩ (fun _ => (201, ""))).2,
          jStrIs (r.lookup "status") "active" = true) := by
  have hp : ∀ m, ((fun (_ : Json) => ((201 : Nat), "")) m).1 < 400 := fun _ => by
    show (201 : Nat) < 400
    decide
  have h := post_medications_active_only "U1" ⟨[c10Active, c10Completed]⟩ (fun _ => (201, "")) hp
  refine ⟨hp, ?_, h.2⟩
  rw [h.1]
  rfl
